import Mathlib

/-!
# VU provider selection layer (`pcsx2/VU/VUInterface.cpp`)

A shallow embedding of the provider registry, the selection policy
(`ApplyConfig`), the aggregate failure query (`HadSomeFailures`) and the
emergency recovery path (`EmergencyResponse`), followed by theorems about them.

Conventions of the embedding
* A non-null `BaseVUmicroCPU*` is an address `Ptr`; a possibly-null pointer is
  an `Option Ptr`.
* The process memory that the functions touch is a `World`: the state of every
  engine object by address, the next address `new` hands out, and the log of
  calls made on engines.
* The engines themselves (`VUmicro.h` and the six engine classes) are outside
  this unit; their behaviour is the parameter `Engines`.
* C++ undefined behaviour (a lookup past the end of a vector, a null slot or
  registry dereferenced) is the result `none`.
* An exception that leaves a function is the result `Except.error`.
-/

namespace VUInterface

/-! ## Enumerations of `VUInterface.h` -/

/-- The enumerator `PROVIDER_INTERPRETER = 0`. -/
def PROVIDER_INTERPRETER : Int := 0
/-- The enumerator `PROVIDER_SUPERVU = 1`. -/
def PROVIDER_SUPERVU : Int := 1
/-- The enumerator `PROVIDER_MICROVU = 2`. -/
def PROVIDER_MICROVU : Int := 2
/-- The enumerator `VUCORE_0 = 0`. -/
def VUCORE_0 : Int := 0
/-- The enumerator `VUCORE_1 = 1`. -/
def VUCORE_1 : Int := 1

/-! ## Collaborators that are parameters -/

/-- Address of a live engine object. -/
abbrev Ptr := Nat

/-- The six engine classes the registry instantiates (template arguments of
`CpuInitializer` on lines 104-106). -/
inductive CpuType where
  | recSuperVU0 | recSuperVU1 | recMicroVU0 | recMicroVU1 | InterpVU0 | InterpVU1
  deriving DecidableEq, Repr

/-- What a C++ expression can throw, by the class the `catch` clauses of
`CpuInitializer` distinguish: `Exception::RuntimeError` (or a class derived
from it), `std::runtime_error` (or derived), or an object of any other type. -/
inductive Thrown where
  | RuntimeError (diag : Nat)
  | std_runtime_error (what : Nat)
  | other (tag : Nat)
  deriving DecidableEq, Repr

/-- The failure record a slot keeps in `ExThrown`: either `ex.Clone()` of a
caught `Exception::RuntimeError`, or `new Exception::RuntimeError(ex)` wrapping
a caught `std::runtime_error`. -/
inductive BaseException where
  | Clone (diag : Nat)
  | Wrapped (what : Nat)
  deriving DecidableEq, Repr

/-- The configuration fields read by this unit
(`Pcsx2Config::RecompilerOptions`). -/
structure RecompilerOptions where
  EnableVU0 : Bool
  EnableVU1 : Bool
  UseMicroVU0 : Bool
  UseMicroVU1 : Bool
  deriving DecidableEq, Repr

/-- The engine interface `BaseVUmicroCPU` and the engine classes, declared in
`VUmicro.h` and not part of this unit: taken as a parameter. `σ` is the state
of one engine object. `create t` is `new t()`; the remaining fields are the
virtual methods. `uintBits` is the width of the unsigned type `uint` in which
`GetCacheReserve` reports and `SetCacheReserve` accepts the reserve. -/
structure Engines (σ : Type) where
  create : CpuType → Except Thrown σ
  Reserve : σ → Except Thrown σ
  Shutdown : σ → σ
  Reset : σ → σ
  GetCacheReserve : σ → Nat
  SetCacheReserve : Nat → σ → σ
  uintBits : Nat

/-- A call observable from outside this unit. -/
inductive Event where
  | construct (t : CpuType)
  | Reserve (t : CpuType) (p : Ptr)
  | ConsoleError
  | Release (p : Ptr)
  | Shutdown (p : Ptr)
  | GetCacheReserve (p : Ptr)
  | SetCacheReserve (p : Ptr) (v : Nat)
  | Reset (p : Ptr)
  deriving DecidableEq, Repr

/-- Process memory as far as this unit uses it. -/
structure World (σ : Type) where
  heap : Ptr → σ
  next : Nat
  log : List Event

namespace World

variable {σ : Type}

/-- Append one call to the log. -/
def emit (w : World σ) (e : Event) : World σ :=
  { w with log := w.log ++ [e] }

/-- Replace the state of the object at `p`. -/
def store (w : World σ) (p : Ptr) (obj : σ) : World σ :=
  { w with heap := Function.update w.heap p obj }

/-- The call `p->GetCacheReserve()`. -/
def GetCacheReserve (E : Engines σ) (p : Ptr) (w : World σ) : World σ × Nat :=
  (w.emit (.GetCacheReserve p), E.GetCacheReserve (w.heap p))

/-- The call `p->SetCacheReserve(v)`. -/
def SetCacheReserve (E : Engines σ) (p : Ptr) (v : Nat) (w : World σ) : World σ :=
  (w.emit (.SetCacheReserve p v)).store p (E.SetCacheReserve v (w.heap p))

/-- The call `p->Reset()`. -/
def Reset (E : Engines σ) (p : Ptr) (w : World σ) : World σ :=
  (w.emit (.Reset p)).store p (E.Reset (w.heap p))

/-- The call `p->Shutdown()`. -/
def Shutdown (E : Engines σ) (p : Ptr) (w : World σ) : World σ :=
  (w.emit (.Shutdown p)).store p (E.Shutdown (w.heap p))

end World

/-! ## `CpuInitializer` (the slot) -/

/-- The data members of a slot: `MyCpu` (null or the engine) and `ExThrown`
(null or the failure record). -/
structure CpuInitializerBase where
  MyCpu : Option Ptr
  ExThrown : Option BaseException
  deriving DecidableEq, Repr

/-- The method `IsAvailable`: `return !!MyCpu;`. -/
def CpuInitializerBase.IsAvailable (s : CpuInitializerBase) : Bool :=
  s.MyCpu.isSome

/-- The method `GetPtr`: `return MyCpu.GetPtr();`. -/
def CpuInitializerBase.GetPtr (s : CpuInitializerBase) : Option Ptr :=
  s.MyCpu

/-- A computation that changes the world and either returns or throws. -/
abbrev Thrower (σ α : Type) := World σ × Except Thrown α

/-- Sequencing: the rest runs only when the first part returned. -/
def Thrower.andThen {σ α β : Type} (x : Thrower σ α)
    (f : World σ → α → Thrower σ β) : Thrower σ β :=
  match x with
  | (w, .ok a) => f w a
  | (w, .error ex) => (w, .error ex)

/-- The two `catch` clauses of the slot constructor (lines 72-83), entered with
`MyCpu` as the `try` block left it. Both log to the console, reset `MyCpu`
(releasing the engine if one was created) and store the failure record. An
object of any other type matches neither clause: the half-built slot is
unwound (its `MyCpu` member releases the engine) and the object propagates. -/
def CpuInitializer.handlers {σ : Type} (w : World σ) (MyCpu : Option Ptr)
    (ex : Thrown) : Thrower σ CpuInitializerBase :=
  let release (w : World σ) : World σ :=
    match MyCpu with
    | some p => w.emit (.Release p)
    | none => w
  match ex with
  | .RuntimeError diag =>
      (release (w.emit .ConsoleError), .ok { MyCpu := none, ExThrown := some (.Clone diag) })
  | .std_runtime_error what =>
      (release (w.emit .ConsoleError), .ok { MyCpu := none, ExThrown := some (.Wrapped what) })
  | .other tag => (release w, .error (.other tag))

/-- The constructor `CpuInitializer<CpuType>::CpuInitializer()` (lines 64-84):
`MyCpu = new CpuType(); MyCpu->Reserve();` inside `try`, then the handlers. -/
def CpuInitializer.ctor {σ : Type} (E : Engines σ) (t : CpuType) (w : World σ) :
    Thrower σ CpuInitializerBase :=
  let w1 := w.emit (.construct t)
  match E.create t with
  | .error ex => CpuInitializer.handlers w1 none ex
  | .ok obj =>
      let p := w1.next
      let w2 := ({ w1 with next := p + 1 }.store p obj).emit (.Reserve t p)
      match E.Reserve obj with
      | .error ex => CpuInitializer.handlers w2 (some p) ex
      | .ok obj' => (w2.store p obj', .ok { MyCpu := some p, ExThrown := none })

/-- The destructor `CpuInitializer<CpuType>::~CpuInitializer()` (lines 86-91):
`if (MyCpu) MyCpu->Shutdown();`, after which the member `MyCpu` releases the
engine. -/
def CpuInitializer.dtor {σ : Type} (E : Engines σ) (s : CpuInitializerBase)
    (w : World σ) : World σ :=
  match s.MyCpu with
  | some p => (w.Shutdown E p).emit (.Release p)
  | none => w

/-! ## `CpuInitializerSet` (the registry) -/

/-- A `std::vector<CpuInitializerBase*>`: each element null or a slot. -/
abbrev SlotVec := List (Option CpuInitializerBase)

/-- A `std::map<int, std::vector<CpuInitializerBase*>>`: entries in increasing
key order, one per key. -/
abbrev CoreMap := List (Int × SlotVec)

/-- Lookup of a key without insertion (`find`). -/
def CoreMap.find (m : CoreMap) (k : Int) : Option SlotVec :=
  match m with
  | [] => none
  | (k', v) :: rest => if k' = k then some v else CoreMap.find rest k

/-- The statement `m[k] = v`: replaces the entry of `k` or inserts it in key
order. -/
def CoreMap.assign (m : CoreMap) (k : Int) (v : SlotVec) : CoreMap :=
  match m with
  | [] => [(k, v)]
  | (k', v') :: rest =>
      if k < k' then (k, v) :: (k', v') :: rest
      else if k = k' then (k, v) :: rest
      else (k', v') :: CoreMap.assign rest k v

/-- The expression `m[k]` (`operator[]`): the vector stored under `k`, together
with the map afterwards; a key that is missing is first inserted with an empty
vector. -/
def CoreMap.subscript (m : CoreMap) (k : Int) : CoreMap × SlotVec :=
  match m.find k with
  | some v => (m, v)
  | none => (m.assign k [], [])

/-- The class `CpuInitializerSet` (its one data member). -/
structure CpuInitializerSet where
  m_cores : CoreMap
  deriving DecidableEq, Repr

/-- The expression `m_cores[provider][vu_index]->` as every accessor uses it:
the slot, or `none` where the C++ is undefined (key missing, so that
`operator[]` makes an empty vector that is then indexed; index outside the
vector; null element). -/
def CpuInitializerSet.slot (s : CpuInitializerSet) (provider vu_index : Int) :
    Option CpuInitializerBase :=
  match s.m_cores.find provider with
  | none => none
  | some v =>
      if vu_index < 0 then none
      else
        match v.get? vu_index.toNat with
        | some (some sl) => some sl
        | _ => none

/-- The registry after the expression `m_cores[provider]` was evaluated: the
one write a lookup can make. -/
def CpuInitializerSet.afterLookup (s : CpuInitializerSet) (provider : Int) :
    CpuInitializerSet :=
  { m_cores := (s.m_cores.subscript provider).1 }

/-- A braced list `{ new CpuInitializer<t0>(), new CpuInitializer<t1>() }`:
the elements are built left to right. -/
def CpuInitializerSet.newPair {σ : Type} (E : Engines σ) (t0 t1 : CpuType)
    (w : World σ) : Thrower σ SlotVec :=
  (CpuInitializer.ctor E t0 w).andThen fun w s0 =>
  (CpuInitializer.ctor E t1 w).andThen fun w s1 =>
  (w, .ok [some s0, some s1])

/-- The three assignments of lines 104-106 once the six slots exist. -/
def CpuInitializerSet.build (sv0 sv1 mv0 mv1 in0 in1 : CpuInitializerBase) :
    CpuInitializerSet :=
  { m_cores :=
      ((CoreMap.assign [] PROVIDER_SUPERVU [some sv0, some sv1]).assign
        PROVIDER_MICROVU [some mv0, some mv1]).assign
        PROVIDER_INTERPRETER [some in0, some in1] }

/-- The constructor `CpuInitializerSet::CpuInitializerSet()` (lines 102-107):
superVU pair first, then microVU, then the interpreters. -/
def CpuInitializerSet.ctor {σ : Type} (E : Engines σ) (w : World σ) :
    Thrower σ CpuInitializerSet :=
  (CpuInitializerSet.newPair E .recSuperVU0 .recSuperVU1 w).andThen fun w sv =>
  let m1 := CoreMap.assign [] PROVIDER_SUPERVU sv
  (CpuInitializerSet.newPair E .recMicroVU0 .recMicroVU1 w).andThen fun w mv =>
  let m2 := m1.assign PROVIDER_MICROVU mv
  (CpuInitializerSet.newPair E .InterpVU0 .InterpVU1 w).andThen fun w iv =>
  let m3 := m2.assign PROVIDER_INTERPRETER iv
  (w, .ok { m_cores := m3 })

/-- The inner loop of the destructor for one map entry:
`for (i = 0; i < 2; ++i) if (it.second[i]) delete it.second[i];`. Undefined
when the vector has fewer than two elements. -/
def CpuInitializerSet.dtorEntry {σ : Type} (E : Engines σ) (v : SlotVec)
    (w : World σ) : Option (World σ) :=
  match v.get? 0, v.get? 1 with
  | some a, some b =>
      let w := match a with
        | some s => CpuInitializer.dtor E s w
        | none => w
      let w := match b with
        | some s => CpuInitializer.dtor E s w
        | none => w
      some w
  | _, _ => none

/-- The destructor `CpuInitializerSet::~CpuInitializerSet()` (lines 109-120):
the entries are visited in key order. -/
def CpuInitializerSet.dtorLoop {σ : Type} (E : Engines σ) (m : CoreMap)
    (w : World σ) : Option (World σ) :=
  match m with
  | [] => some w
  | (_, v) :: rest =>
      match CpuInitializerSet.dtorEntry E v w with
      | some w => CpuInitializerSet.dtorLoop E rest w
      | none => none

/-- The destructor applied to a registry. -/
def CpuInitializerSet.dtor {σ : Type} (E : Engines σ) (s : CpuInitializerSet)
    (w : World σ) : Option (World σ) :=
  CpuInitializerSet.dtorLoop E s.m_cores w

/-! ## Globals and the public functions -/

/-- The array `BaseVUmicroCPU* cpu_vu[2]`. -/
structure CpuVu where
  vu0 : Option Ptr
  vu1 : Option Ptr
  deriving DecidableEq, Repr

/-- The element `cpu_vu[i]`, undefined outside the array. -/
def CpuVu.get (a : CpuVu) (i : Int) : Option (Option Ptr) :=
  if i = 0 then some a.vu0 else if i = 1 then some a.vu1 else none

/-- The globals of the unit (lines 123-124) together with the world. -/
structure State (σ : Type) where
  world : World σ
  cpu_vu : CpuVu
  CpuProviders : Option CpuInitializerSet

/-- The state at process start: `cpu_vu[2] = {}` and an empty `CpuProviders`. -/
def boot {σ : Type} (w : World σ) : State σ :=
  { world := w, cpu_vu := { vu0 := none, vu1 := none }, CpuProviders := none }

/-- The function `Initialize` (lines 127-130):
`CpuProviders = new CpuInitializerSet();`. The new registry is built first; the
scoped pointer then destroys the registry it held before, if any. -/
def Initialize {σ : Type} (E : Engines σ) (g : State σ) :
    Option (State σ × Except Thrown Unit) :=
  match CpuInitializerSet.ctor E g.world with
  | (w, .error ex) => some ({ g with world := w }, .error ex)
  | (w, .ok set) =>
      match g.CpuProviders with
      | none => some ({ g with world := w, CpuProviders := some set }, .ok ())
      | some old =>
          match old.dtor E w with
          | some w' => some ({ g with world := w', CpuProviders := some set }, .ok ())
          | none => none

/-- The function `IsProviderAvailable` (lines 173-176). -/
def IsProviderAvailable {σ : Type} (g : State σ) (provider vu_index : Int) :
    Option Bool :=
  match g.CpuProviders with
  | none => none
  | some reg => (reg.slot provider vu_index).map CpuInitializerBase.IsAvailable

/-- The function `GetException` (lines 178-181). -/
def GetException {σ : Type} (g : State σ) (provider vu_index : Int) :
    Option (Option BaseException) :=
  match g.CpuProviders with
  | none => none
  | some reg => (reg.slot provider vu_index).map CpuInitializerBase.ExThrown

/-- The function `GetCurrentProvider` (lines 183-186). -/
def GetCurrentProvider {σ : Type} (g : State σ) (vu_index : Int) :
    Option (Option Ptr) :=
  g.cpu_vu.get vu_index

/-- The function `GetVUProvider` (lines 189-192). -/
def GetVUProvider {σ : Type} (g : State σ) (provider vu_index : Int) :
    Option (Option Ptr) :=
  match g.CpuProviders with
  | none => none
  | some reg => (reg.slot provider vu_index).map CpuInitializerBase.GetPtr

/-- The globals after one of the queries `IsProviderAvailable`, `GetException`
and `GetVUProvider` ran with the argument `provider`: their bodies assign
nothing, so the globals differ at most by what `m_cores[provider]` inserted. -/
def State.afterQuery {σ : Type} (g : State σ) (provider : Int) : State σ :=
  { g with CpuProviders := g.CpuProviders.map fun reg => reg.afterLookup provider }

/-- The function `ApplyConfig` (lines 132-148). `EmuConfig` is the global
`EmuConfig.Cpu.Recompiler`, read only. -/
def ApplyConfig {σ : Type} (EmuConfig : RecompilerOptions) (g : State σ) :
    Option (State σ) :=
  match g.CpuProviders with
  | none => none
  | some reg =>
    (reg.slot PROVIDER_INTERPRETER 0).bind fun i0 =>
    let g := { g with cpu_vu := { g.cpu_vu with vu0 := i0.GetPtr } }
    (reg.slot PROVIDER_INTERPRETER 1).bind fun i1 =>
    let g := { g with cpu_vu := { g.cpu_vu with vu1 := i1.GetPtr } }
    let r0 : Option (State σ) :=
      if EmuConfig.EnableVU0 then
        (if EmuConfig.UseMicroVU0 then reg.slot PROVIDER_MICROVU 0
          else reg.slot PROVIDER_SUPERVU 0).map fun s =>
          { g with cpu_vu := { g.cpu_vu with vu0 := s.GetPtr } }
      else some g
    r0.bind fun g =>
    if EmuConfig.EnableVU1 then
      (if EmuConfig.UseMicroVU1 then reg.slot PROVIDER_MICROVU 1
        else reg.slot PROVIDER_SUPERVU 1).map fun s =>
        { g with cpu_vu := { g.cpu_vu with vu1 := s.GetPtr } }
    else some g

/-- The computation `(x * 2) / 3` on a `uint` of `bits` bits. -/
def shrink (bits : Nat) (x : Nat) : Nat :=
  (x * 2) % 2 ^ bits / 3

/-- One of the two blocks of `EmergencyResponse`, for the pointer `cpu`:
`if (cpu) { cpu->SetCacheReserve((cpu->GetCacheReserve() * 2) / 3); cpu->Reset(); }`. -/
def EmergencyResponse.unit {σ : Type} (E : Engines σ) (cpu : Option Ptr)
    (w : World σ) : World σ :=
  match cpu with
  | some p =>
      let (w, S) := w.GetCacheReserve E p
      let w := w.SetCacheReserve E p (shrink E.uintBits S)
      w.Reset E p
  | none => w

/-- The function `EmergencyResponse` (lines 150-163). -/
def EmergencyResponse {σ : Type} (E : Engines σ) (g : State σ) : State σ :=
  let g := { g with world := EmergencyResponse.unit E g.cpu_vu.vu0 g.world }
  { g with world := EmergencyResponse.unit E g.cpu_vu.vu1 g.world }

/-- One disjunct `flags && !IsProviderAvailable(..)`: the query is made only
when the flags hold. -/
def HadSomeFailures.term (flags : Bool) (avail : Option Bool) : Option Bool :=
  if flags then avail.map (fun a => !a) else some false

/-- The operator `||`: the right operand is evaluated only when the left is
false. -/
def HadSomeFailures.orElse (a b : Option Bool) : Option Bool :=
  a.bind fun x => if x then some true else b

/-- The function `HadSomeFailures` (lines 165-171). -/
def HadSomeFailures {σ : Type} (g : State σ) (recOpts : RecompilerOptions) :
    Option Bool :=
  HadSomeFailures.orElse
    (HadSomeFailures.term (recOpts.EnableVU0 && recOpts.UseMicroVU0)
      (IsProviderAvailable g PROVIDER_MICROVU VUCORE_0)) <|
  HadSomeFailures.orElse
    (HadSomeFailures.term (recOpts.EnableVU1 && recOpts.UseMicroVU0)
      (IsProviderAvailable g PROVIDER_MICROVU VUCORE_1)) <|
  HadSomeFailures.orElse
    (HadSomeFailures.term (recOpts.EnableVU0 && !recOpts.UseMicroVU0)
      (IsProviderAvailable g PROVIDER_SUPERVU VUCORE_0)) <|
  HadSomeFailures.term (recOpts.EnableVU1 && !recOpts.UseMicroVU1)
    (IsProviderAvailable g PROVIDER_SUPERVU VUCORE_1)

/-! ## Vocabulary of the specification

The definitions below follow the wording of the specification, not the code;
the theorems compare the code with them. -/

namespace Spec

/-- The three engine types of the specification. -/
inductive Engine where
  | Interpreter | RecompilerLegacy | RecompilerModern
  deriving DecidableEq, Repr

/-- The provider enumerator of an engine type (superVU is the legacy
recompiler, microVU the modern one). -/
def Engine.id : Engine → Int
  | .Interpreter => PROVIDER_INTERPRETER
  | .RecompilerLegacy => PROVIDER_SUPERVU
  | .RecompilerModern => PROVIDER_MICROVU

/-- The two unit indices of the specification. -/
inductive UnitIndex where
  | u0 | u1
  deriving DecidableEq, Repr

/-- The `VUCore` enumerator of a unit. -/
def UnitIndex.id : UnitIndex → Int
  | .u0 => VUCORE_0
  | .u1 => VUCORE_1

/-- The snapshot field "recompilation enabled" of a unit. -/
def enabled (cfg : RecompilerOptions) : UnitIndex → Bool
  | .u0 => cfg.EnableVU0
  | .u1 => cfg.EnableVU1

/-- The snapshot field "prefer modern recompiler" of a unit. -/
def preferModern (cfg : RecompilerOptions) : UnitIndex → Bool
  | .u0 => cfg.UseMicroVU0
  | .u1 => cfg.UseMicroVU1

/-- The decision tree of the selection policy: the engine a snapshot requests
for a unit. -/
def requested (cfg : RecompilerOptions) (u : UnitIndex) : Engine :=
  if enabled cfg u then
    (if preferModern cfg u then .RecompilerModern else .RecompilerLegacy)
  else .Interpreter

/-- The engine class behind an (engine type, unit) pair. -/
def cpuType : Engine → UnitIndex → CpuType
  | .Interpreter, .u0 => .InterpVU0
  | .Interpreter, .u1 => .InterpVU1
  | .RecompilerLegacy, .u0 => .recSuperVU0
  | .RecompilerLegacy, .u1 => .recSuperVU1
  | .RecompilerModern, .u0 => .recMicroVU0
  | .RecompilerModern, .u1 => .recMicroVU1

/-- The failure that instantiating an engine class or reserving it raises, if
either does. -/
def failure {σ : Type} (E : Engines σ) (t : CpuType) : Option Thrown :=
  match E.create t with
  | .error ex => some ex
  | .ok obj =>
      match E.Reserve obj with
      | .error ex => some ex
      | .ok _ => none

/-- The failure record of a failure of one of the two families a slot catches;
`none` for an object of any other type. -/
def record : Thrown → Option BaseException
  | .RuntimeError diag => some (.Clone diag)
  | .std_runtime_error what => some (.Wrapped what)
  | .other _ => none

/-- Whether a failure is of a class the slot does not catch, so that it leaves
the slot constructor. -/
def propagates {σ : Type} (E : Engines σ) (t : CpuType) : Bool :=
  match failure E t with
  | some (.other _) => true
  | _ => false

/-- The number of addresses that building the slot of `t` takes from `new`:
one when the engine object was created, none when `new t()` threw. -/
def created {σ : Type} (E : Engines σ) (t : CpuType) : Nat :=
  match E.create t with
  | .ok _ => 1
  | .error _ => 0

/-- The console message of a caught failure. -/
def reported : Thrown → List Event
  | .other _ => []
  | _ => [.ConsoleError]

/-- The calls that building the slot of `t` makes when `new` hands out the
address `p`: the engine is instantiated; if that returned, it is reserved; a
failure of either step is reported when caught, and the engine, if it exists,
is released. -/
def slotEvents {σ : Type} (E : Engines σ) (t : CpuType) (p : Ptr) : List Event :=
  match E.create t with
  | .error ex => .construct t :: reported ex
  | .ok obj =>
      match E.Reserve obj with
      | .ok _ => [.construct t, .Reserve t p]
      | .error ex => [.construct t, .Reserve t p] ++ reported ex ++ [.Release p]

/-- The calls that building the two legacy (superVU) slots makes, unit 0 then
unit 1; the second slot is not reached when the first lets a failure out. -/
def legacyEvents {σ : Type} (E : Engines σ) (p : Ptr) : List Event :=
  slotEvents E .recSuperVU0 p ++
    (if propagates E .recSuperVU0 then []
     else slotEvents E .recSuperVU1 (p + created E .recSuperVU0))

/-- Whether an event instantiates or reserves a legacy (superVU) engine. -/
def isLegacyBuild : Event → Bool
  | .construct .recSuperVU0 => true
  | .construct .recSuperVU1 => true
  | .Reserve .recSuperVU0 _ => true
  | .Reserve .recSuperVU1 _ => true
  | _ => false

/-- Whether an event instantiates or reserves a microVU or interpreter engine. -/
def isOtherBuild : Event → Bool
  | .construct t => t ≠ .recSuperVU0 && t ≠ .recSuperVU1
  | .Reserve t _ => t ≠ .recSuperVU0 && t ≠ .recSuperVU1
  | _ => false

/-- The call sequence of the recovery procedure on one unit: read the reserve,
set it to `v`, reset; nothing for a null Active Pointer. -/
def recoveryCalls (cpu : Option Ptr) (v : Nat) : List Event :=
  match cpu with
  | some p => [.GetCacheReserve p, .SetCacheReserve p v, .Reset p]
  | none => []

/-- The reserve that the handle behind an Active Pointer reports in the world
`w` (0 for a null pointer, which is never asked). -/
def reserveOf {σ : Type} (E : Engines σ) (w : World σ) (cpu : Option Ptr) : Nat :=
  match cpu with
  | some p => E.GetCacheReserve (w.heap p)
  | none => 0

/-- Whether an event is a call made on the engine at address `p`. -/
def isCallOn (p : Ptr) : Event → Bool
  | .Reserve _ q => q = p
  | .Release q => q = p
  | .Shutdown q => q = p
  | .GetCacheReserve q => q = p
  | .SetCacheReserve q _ => q = p
  | .Reset q => q = p
  | _ => false

/-- Whether an event is a `Shutdown` call. -/
def isShutdown : Event → Bool
  | .Shutdown _ => true
  | _ => false

/-- The calls that destroying one slot makes: `Shutdown` on its handle and then
the release of the engine when the slot is available, nothing otherwise. -/
def slotTeardown (s : CpuInitializerBase) : List Event :=
  match s.MyCpu with
  | some p => [.Shutdown p, .Release p]
  | none => []

/-- The calls that destroying the given slots, in this order, makes. -/
def teardownCalls : List CpuInitializerBase → List Event
  | [] => []
  | s :: rest => slotTeardown s ++ teardownCalls rest

end Spec

/-- A state whose registry holds the six given slots. -/
def stateOf {σ : Type} (w : World σ) (cv : CpuVu)
    (sv0 sv1 mv0 mv1 in0 in1 : CpuInitializerBase) : State σ :=
  { world := w, cpu_vu := cv,
    CpuProviders := some (CpuInitializerSet.build sv0 sv1 mv0 mv1 in0 in1) }

/-! ## Concrete inputs used by the examples -/

namespace Example

/-- An engine object that is just its cache reserve. -/
def engines (fail : CpuType → Option Thrown) : Engines Nat :=
  { create := fun t =>
      match fail t with
      | some ex => .error ex
      | none => .ok 900
    Reserve := fun s => .ok s
    Shutdown := fun s => s
    Reset := fun s => s
    GetCacheReserve := fun s => s
    SetCacheReserve := fun v _ => v
    uintBits := 32 }

/-- The construction outcomes in which exactly the class `bad` throws `ex`. -/
def failing (bad : CpuType) (ex : Thrown) : CpuType → Option Thrown :=
  fun t => if t = bad then some ex else none

/-- A world with nothing allocated. -/
def world : World Nat :=
  { heap := fun _ => 0, next := 1, log := [] }

/-- Engines of which only `new recMicroVU1()` throws, an
`Exception::RuntimeError`. -/
def micro1Throws : Engines Nat :=
  engines (failing .recMicroVU1 (.RuntimeError 0))

/-- Engines of which `new recSuperVU0()` throws an object that is neither an
`Exception::RuntimeError` nor a `std::runtime_error`. -/
def super0ThrowsOther : Engines Nat :=
  engines (failing .recSuperVU0 (.other 0))

/-- The state `Initialize` leaves when run at process start with
`micro1Throws`. -/
def initialized : State Nat :=
  match Initialize micro1Throws (boot world) with
  | some (g, _) => g
  | none => boot world

/-- A slot that was built. -/
def good (p : Ptr) : CpuInitializerBase :=
  { MyCpu := some p, ExThrown := none }

/-- A slot whose construction failed. -/
def failed : CpuInitializerBase :=
  { MyCpu := none, ExThrown := some (.Clone 0) }

/-- Every flag clear: the interpreter is requested for both units. -/
def interpreters : RecompilerOptions :=
  { EnableVU0 := false, EnableVU1 := false, UseMicroVU0 := false, UseMicroVU1 := false }

/-- Unit 0 on the interpreter, unit 1 on microVU. -/
def modernOnUnit1 : RecompilerOptions :=
  { EnableVU0 := false, EnableVU1 := true, UseMicroVU0 := false, UseMicroVU1 := true }

/-- Both units on microVU. -/
def modernOnBoth : RecompilerOptions :=
  { EnableVU0 := true, EnableVU1 := true, UseMicroVU0 := true, UseMicroVU1 := true }

/-- The registry in which only the interpreter of unit 0 failed. -/
def interp0Failed : State Nat :=
  stateOf world { vu0 := none, vu1 := none }
    (good 1) (good 2) (good 3) (good 4) failed (good 5)

/-- The registry in which only microVU of unit 1 failed. -/
def micro1Failed : State Nat :=
  stateOf world { vu0 := none, vu1 := none }
    (good 1) (good 2) (good 3) failed (good 4) (good 5)

/-- The registry in which every slot was built. -/
def allGood : State Nat :=
  stateOf world { vu0 := none, vu1 := none }
    (good 1) (good 2) (good 3) (good 4) (good 5) (good 6)

/-- Engines none of which fails. -/
def sound : Engines Nat :=
  engines (fun _ => none)

/-- Engines of which only `new InterpVU0()` throws, an
`Exception::RuntimeError`. -/
def interp0Throws : Engines Nat :=
  engines (failing .InterpVU0 (.RuntimeError 0))

/-- A running state over the registry `micro1Failed` with both units on
microVU (unit 0 on the engine at address 3, unit 1 left null), every engine
reporting the reserve `2 ^ 31`. -/
def overflowing : State Nat :=
  { world := { heap := fun _ => 2147483648, next := 6, log := [] }
    cpu_vu := { vu0 := some 3, vu1 := none }
    CpuProviders := micro1Failed.CpuProviders }

end Example

/-! ## Lemmas on the registry -/

section Registry

variable {σ : Type}

theorem build_slot (sv0 sv1 mv0 mv1 in0 in1 : CpuInitializerBase)
    (e : Spec.Engine) (u : Spec.UnitIndex) :
    (CpuInitializerSet.build sv0 sv1 mv0 mv1 in0 in1).slot e.id u.id =
      some (match e, u with
        | .Interpreter, .u0 => in0
        | .Interpreter, .u1 => in1
        | .RecompilerLegacy, .u0 => sv0
        | .RecompilerLegacy, .u1 => sv1
        | .RecompilerModern, .u0 => mv0
        | .RecompilerModern, .u1 => mv1) := by
  cases e <;> cases u <;> rfl

theorem slot_available_iff (s : CpuInitializerBase) :
    s.IsAvailable = true ↔ s.GetPtr ≠ none := by
  rcases s with ⟨m, x⟩
  cases m <;> simp [CpuInitializerBase.IsAvailable, CpuInitializerBase.GetPtr]

theorem exists_unit_iff (P : Spec.UnitIndex → Prop) :
    (∃ u, P u) ↔ P .u0 ∨ P .u1 := by
  constructor
  · rintro ⟨u, hu⟩
    cases u
    · exact Or.inl hu
    · exact Or.inr hu
  · rintro (h | h)
    · exact ⟨_, h⟩
    · exact ⟨_, h⟩

theorem slot_null_iff (s : CpuInitializerBase) :
    (some s.GetPtr = some none ↔ some s.IsAvailable = some false) := by
  rcases s with ⟨m, x⟩
  cases m <;> simp [CpuInitializerBase.IsAvailable, CpuInitializerBase.GetPtr]

theorem IsProviderAvailable_stateOf (w : World σ) (cv : CpuVu)
    (sv0 sv1 mv0 mv1 in0 in1 : CpuInitializerBase)
    (e : Spec.Engine) (u : Spec.UnitIndex) :
    IsProviderAvailable (stateOf w cv sv0 sv1 mv0 mv1 in0 in1) e.id u.id =
      some (match e, u with
        | .Interpreter, .u0 => in0
        | .Interpreter, .u1 => in1
        | .RecompilerLegacy, .u0 => sv0
        | .RecompilerLegacy, .u1 => sv1
        | .RecompilerModern, .u0 => mv0
        | .RecompilerModern, .u1 => mv1).IsAvailable := by
  simp only [IsProviderAvailable, stateOf, build_slot, Option.map_some']

theorem GetVUProvider_stateOf (w : World σ) (cv : CpuVu)
    (sv0 sv1 mv0 mv1 in0 in1 : CpuInitializerBase)
    (e : Spec.Engine) (u : Spec.UnitIndex) :
    GetVUProvider (stateOf w cv sv0 sv1 mv0 mv1 in0 in1) e.id u.id =
      some (match e, u with
        | .Interpreter, .u0 => in0
        | .Interpreter, .u1 => in1
        | .RecompilerLegacy, .u0 => sv0
        | .RecompilerLegacy, .u1 => sv1
        | .RecompilerModern, .u0 => mv0
        | .RecompilerModern, .u1 => mv1).GetPtr := by
  simp only [GetVUProvider, stateOf, build_slot, Option.map_some']

theorem GetException_stateOf (w : World σ) (cv : CpuVu)
    (sv0 sv1 mv0 mv1 in0 in1 : CpuInitializerBase)
    (e : Spec.Engine) (u : Spec.UnitIndex) :
    GetException (stateOf w cv sv0 sv1 mv0 mv1 in0 in1) e.id u.id =
      some (match e, u with
        | .Interpreter, .u0 => in0
        | .Interpreter, .u1 => in1
        | .RecompilerLegacy, .u0 => sv0
        | .RecompilerLegacy, .u1 => sv1
        | .RecompilerModern, .u0 => mv0
        | .RecompilerModern, .u1 => mv1).ExThrown := by
  simp only [GetException, stateOf, build_slot, Option.map_some']

/-- The selection policy on a full registry, in closed form. -/
theorem ApplyConfig_stateOf (w : World σ) (cv : CpuVu)
    (sv0 sv1 mv0 mv1 in0 in1 : CpuInitializerBase) (cfg : RecompilerOptions) :
    ApplyConfig cfg (stateOf w cv sv0 sv1 mv0 mv1 in0 in1) =
      some (stateOf w
        { vu0 := if cfg.EnableVU0 then
                   (if cfg.UseMicroVU0 then mv0.GetPtr else sv0.GetPtr)
                 else in0.GetPtr
          vu1 := if cfg.EnableVU1 then
                   (if cfg.UseMicroVU1 then mv1.GetPtr else sv1.GetPtr)
                 else in1.GetPtr }
        sv0 sv1 mv0 mv1 in0 in1) := by
  rcases cfg with ⟨a, b, c, d⟩
  cases a <;> cases b <;> cases c <;> cases d <;> rfl

/-- The aggregate failure query on a full registry, in closed form. -/
theorem HadSomeFailures_stateOf (w : World σ) (cv : CpuVu)
    (sv0 sv1 mv0 mv1 in0 in1 : CpuInitializerBase) (cfg : RecompilerOptions) :
    HadSomeFailures (stateOf w cv sv0 sv1 mv0 mv1 in0 in1) cfg =
      some ((cfg.EnableVU0 && cfg.UseMicroVU0 && !mv0.IsAvailable) ||
            (cfg.EnableVU1 && cfg.UseMicroVU0 && !mv1.IsAvailable) ||
            (cfg.EnableVU0 && !cfg.UseMicroVU0 && !sv0.IsAvailable) ||
            (cfg.EnableVU1 && !cfg.UseMicroVU1 && !sv1.IsAvailable)) := by
  have h1 := IsProviderAvailable_stateOf w cv sv0 sv1 mv0 mv1 in0 in1
  have a := h1 .RecompilerModern .u0
  have b := h1 .RecompilerModern .u1
  have c := h1 .RecompilerLegacy .u0
  have d := h1 .RecompilerLegacy .u1
  simp only [Spec.Engine.id, Spec.UnitIndex.id] at a b c d
  simp only [HadSomeFailures, a, b, c, d]
  rcases cfg with ⟨e0, e1, m0, m1⟩
  cases e0 <;> cases e1 <;> cases m0 <;> cases m1 <;>
    cases mv0.IsAvailable <;> cases mv1.IsAvailable <;>
    cases sv0.IsAvailable <;> cases sv1.IsAvailable <;> rfl

end Registry

/-! ## Selection policy and aggregate failure query -/

/-- C1: on every registry and for every snapshot, `ApplyConfig` returns, and
the Active Pointer of each unit is then the handle of the one slot the
snapshot requests for that unit (interpreter when recompilation is disabled,
microVU when enabled with prefer-modern, superVU when enabled without). No
availability check intervenes: the Active Pointer is null exactly when that
slot is unavailable, and the registry is left as it was. -/
theorem C1_ApplyConfig_selects_requested_slot {σ : Type} (w : World σ) (cv : CpuVu)
    (sv0 sv1 mv0 mv1 in0 in1 : CpuInitializerBase) (cfg : RecompilerOptions) :
    ∃ g, ApplyConfig cfg (stateOf w cv sv0 sv1 mv0 mv1 in0 in1) = some g ∧
      g.CpuProviders = (stateOf w cv sv0 sv1 mv0 mv1 in0 in1).CpuProviders ∧
      ∀ u : Spec.UnitIndex,
        GetCurrentProvider g u.id =
          GetVUProvider (stateOf w cv sv0 sv1 mv0 mv1 in0 in1)
            (Spec.requested cfg u).id u.id ∧
        (GetCurrentProvider g u.id = some none ↔
          IsProviderAvailable (stateOf w cv sv0 sv1 mv0 mv1 in0 in1)
            (Spec.requested cfg u).id u.id = some false) := by
  refine ⟨_, ApplyConfig_stateOf w cv sv0 sv1 mv0 mv1 in0 in1 cfg, rfl, ?_⟩
  intro u
  rw [GetVUProvider_stateOf, IsProviderAvailable_stateOf]
  rcases cfg with ⟨e0, e1, m0, m1⟩
  cases u <;> cases e0 <;> cases e1 <;> cases m0 <;> cases m1 <;>
    exact ⟨rfl, slot_null_iff _⟩

/-- C2, as stated, fails: with every flag clear the snapshot requests the
interpreter for unit 0; in the registry whose interpreter slot of unit 0 failed
(the one `Initialize` builds when `new InterpVU0()` throws) that engine is
unavailable, yet `HadSomeFailures` answers false: it only ever looks at
recompiler slots. -/
theorem C2_counterexample_interpreter_not_consulted :
    (Initialize Example.interp0Throws (boot Example.world)).map
        (fun r => r.1.CpuProviders) = some Example.interp0Failed.CpuProviders ∧
    ¬ (HadSomeFailures Example.interp0Failed Example.interpreters = some true ↔
        ∃ u : Spec.UnitIndex,
          IsProviderAvailable Example.interp0Failed
            (Spec.requested Example.interpreters u).id u.id = some false) := by
  refine ⟨rfl, ?_⟩
  intro h
  have hex : ∃ u : Spec.UnitIndex,
      IsProviderAvailable Example.interp0Failed
        (Spec.requested Example.interpreters u).id u.id = some false :=
    ⟨.u0, by decide⟩
  have hfalse : HadSomeFailures Example.interp0Failed Example.interpreters = some false := by
    decide
  rw [hfalse] at h
  exact absurd (h.mpr hex) (by decide)

/-- C2, amended: on every registry, for every snapshot in which unit 1 has
recompilation disabled or the two prefer-modern flags agree, `HadSomeFailures`
returns, and returns true exactly when some unit with recompilation enabled
requests a recompiler whose slot is unavailable. Units with recompilation
disabled never count. -/
theorem C2_HadSomeFailures_iff_requested_recompiler_unavailable {σ : Type}
    (w : World σ) (cv : CpuVu) (sv0 sv1 mv0 mv1 in0 in1 : CpuInitializerBase)
    (cfg : RecompilerOptions)
    (h : cfg.EnableVU1 = false ∨ cfg.UseMicroVU0 = cfg.UseMicroVU1) :
    (∃ b, HadSomeFailures (stateOf w cv sv0 sv1 mv0 mv1 in0 in1) cfg = some b) ∧
    (HadSomeFailures (stateOf w cv sv0 sv1 mv0 mv1 in0 in1) cfg = some true ↔
      ∃ u : Spec.UnitIndex, Spec.enabled cfg u = true ∧
        IsProviderAvailable (stateOf w cv sv0 sv1 mv0 mv1 in0 in1)
          (Spec.requested cfg u).id u.id = some false) := by
  refine ⟨⟨_, HadSomeFailures_stateOf w cv sv0 sv1 mv0 mv1 in0 in1 cfg⟩, ?_⟩
  rw [HadSomeFailures_stateOf]
  simp only [IsProviderAvailable_stateOf]
  rw [exists_unit_iff]
  rcases cfg with ⟨e0, e1, m0, m1⟩
  simp only at h
  cases e0 <;> cases e1 <;> cases m0 <;> cases m1 <;>
    simp_all [Spec.requested, Spec.enabled, Spec.preferModern]

/-- Witness for C2 (amended): with both units on microVU the flags agree, and
in the registry whose microVU slot of unit 1 failed the query answers true. -/
theorem C2_HadSomeFailures_iff_requested_recompiler_unavailable_witness :
    (Example.modernOnBoth.EnableVU1 = false ∨
      Example.modernOnBoth.UseMicroVU0 = Example.modernOnBoth.UseMicroVU1) ∧
    HadSomeFailures Example.micro1Failed Example.modernOnBoth = some true :=
  ⟨by decide,
   (C2_HadSomeFailures_iff_requested_recompiler_unavailable Example.world
      { vu0 := none, vu1 := none } (Example.good 1) (Example.good 2) (Example.good 3)
      Example.failed (Example.good 4) (Example.good 5) Example.modernOnBoth
      (by decide)).2.mpr ⟨.u1, by decide, by decide⟩⟩

/-- C3 at its failing input: unit 1 requests microVU, unit 0 has prefer-modern
clear, and the microVU slot of unit 1 failed construction (the registry is the
one `Initialize` builds when `new recMicroVU1()` throws). After `ApplyConfig`
the Active Pointer of unit 1 is null, yet `HadSomeFailures` answers false:
line 168 reads `UseMicroVU0` where unit 1 is meant. -/
theorem C3_failing_input_HadSomeFailures_misses_unit1 :
    (Initialize (Example.engines (Example.failing .recMicroVU1 (.RuntimeError 0)))
        (boot Example.world)).map (fun r => (r.1.CpuProviders, r.2)) =
      some (Example.micro1Failed.CpuProviders, .ok ()) ∧
    IsProviderAvailable Example.micro1Failed PROVIDER_MICROVU VUCORE_1 = some false ∧
    (ApplyConfig Example.modernOnUnit1 Example.micro1Failed).bind
      (fun g => GetCurrentProvider g VUCORE_1) = some none ∧
    (ApplyConfig Example.modernOnUnit1 Example.micro1Failed).bind
      (fun g => HadSomeFailures g Example.modernOnUnit1) = some false := by
  refine ⟨rfl, by decide, by decide, by decide⟩

/-- C4, as stated, fails: with every flag clear and the interpreter slot of
unit 0 failed (the registry `Initialize` builds when `new InterpVU0()` throws),
`HadSomeFailures` is false and still `ApplyConfig` leaves the Active Pointer of
unit 0 null. -/
theorem C4_counterexample_null_pointer_undetected :
    (Initialize Example.interp0Throws (boot Example.world)).map
        (fun r => r.1.CpuProviders) = some Example.interp0Failed.CpuProviders ∧
    HadSomeFailures Example.interp0Failed Example.interpreters = some false ∧
    (ApplyConfig Example.interpreters Example.interp0Failed).bind
      (fun g => GetCurrentProvider g VUCORE_0) = some none := by
  refine ⟨rfl, by decide, by decide⟩

/-- C4, amended: on every registry and for every snapshot, if `HadSomeFailures`
is false then `ApplyConfig` returns and the Active Pointer of each unit equals
the handle of the engine the snapshot requests for it; it is non-null for
unit 0 when recompilation is enabled for unit 0, and for unit 1 when
recompilation is enabled for unit 1 and either prefer-modern is clear for unit
1 or set for unit 0. For a unit with recompilation disabled it is null exactly
when the interpreter slot of that unit is unavailable. -/
theorem C4_no_failures_gives_requested_handle {σ : Type}
    (w : World σ) (cv : CpuVu) (sv0 sv1 mv0 mv1 in0 in1 : CpuInitializerBase)
    (cfg : RecompilerOptions)
    (h : HadSomeFailures (stateOf w cv sv0 sv1 mv0 mv1 in0 in1) cfg = some false) :
    ∃ g, ApplyConfig cfg (stateOf w cv sv0 sv1 mv0 mv1 in0 in1) = some g ∧
      (∀ u : Spec.UnitIndex,
        GetCurrentProvider g u.id =
          GetVUProvider (stateOf w cv sv0 sv1 mv0 mv1 in0 in1)
            (Spec.requested cfg u).id u.id) ∧
      (cfg.EnableVU0 = false ∨ ∃ p, GetCurrentProvider g VUCORE_0 = some (some p)) ∧
      (cfg.EnableVU1 = false ∨ (cfg.UseMicroVU1 = true ∧ cfg.UseMicroVU0 = false) ∨
        ∃ p, GetCurrentProvider g VUCORE_1 = some (some p)) ∧
      (∀ u : Spec.UnitIndex, Spec.enabled cfg u = true ∨
        (GetCurrentProvider g u.id = some none ↔
          IsProviderAvailable (stateOf w cv sv0 sv1 mv0 mv1 in0 in1)
            Spec.Engine.Interpreter.id u.id = some false)) := by
  rw [HadSomeFailures_stateOf] at h
  refine ⟨_, ApplyConfig_stateOf w cv sv0 sv1 mv0 mv1 in0 in1 cfg, ?_, ?_, ?_, ?_⟩
  · intro u
    rw [GetVUProvider_stateOf]
    rcases cfg with ⟨e0, e1, m0, m1⟩
    cases u <;> cases e0 <;> cases e1 <;> cases m0 <;> cases m1 <;> rfl
  · rcases cfg with ⟨e0, e1, m0, m1⟩
    rcases sv0 with ⟨_ | p, _⟩ <;> rcases mv0 with ⟨_ | q, _⟩ <;>
      cases e0 <;> cases m0 <;>
      simp_all [GetCurrentProvider, CpuVu.get, stateOf, VUCORE_0,
        CpuInitializerBase.GetPtr, CpuInitializerBase.IsAvailable]
  · rcases cfg with ⟨e0, e1, m0, m1⟩
    rcases sv1 with ⟨_ | p, _⟩ <;> rcases mv1 with ⟨_ | q, _⟩ <;>
      cases e1 <;> cases m0 <;> cases m1 <;>
      simp_all [GetCurrentProvider, CpuVu.get, stateOf, VUCORE_1,
        CpuInitializerBase.GetPtr, CpuInitializerBase.IsAvailable]
  · intro u
    rw [IsProviderAvailable_stateOf]
    rcases cfg with ⟨e0, e1, m0, m1⟩
    cases u <;> cases e0 <;> cases e1 <;>
      first
        | exact Or.inl rfl
        | exact Or.inr (slot_null_iff _)

/-- Witness for C4 (amended): both units on microVU over a registry in which
every slot was built. -/
theorem C4_no_failures_gives_requested_handle_witness :
    HadSomeFailures Example.allGood Example.modernOnBoth = some false ∧
    (ApplyConfig Example.modernOnBoth Example.allGood).bind
      (fun g => GetCurrentProvider g VUCORE_1) = some (some 4) := by
  have h : HadSomeFailures Example.allGood Example.modernOnBoth = some false := by decide
  refine ⟨h, ?_⟩
  obtain ⟨g, hg, hu, _, _, _⟩ :=
    C4_no_failures_gives_requested_handle Example.world { vu0 := none, vu1 := none }
      (Example.good 1) (Example.good 2) (Example.good 3) (Example.good 4)
      (Example.good 5) (Example.good 6) Example.modernOnBoth h
  have hg2 : ApplyConfig Example.modernOnBoth Example.allGood = some g := hg
  rw [hg2]
  exact hu .u1

/-- C9: `ApplyConfig` is history-free and idempotent. Over the same registry
and snapshot, two runs started from any two values of the Active Pointers (and
any two worlds) end with the same Active Pointers, and running `ApplyConfig`
again on the state it produced returns that very state. -/
theorem C9_ApplyConfig_idempotent_history_free {σ : Type}
    (w1 w2 : World σ) (cv1 cv2 : CpuVu)
    (sv0 sv1 mv0 mv1 in0 in1 : CpuInitializerBase) (cfg : RecompilerOptions) :
    ∃ g1 g2,
      ApplyConfig cfg (stateOf w1 cv1 sv0 sv1 mv0 mv1 in0 in1) = some g1 ∧
      ApplyConfig cfg (stateOf w2 cv2 sv0 sv1 mv0 mv1 in0 in1) = some g2 ∧
      g1.cpu_vu = g2.cpu_vu ∧
      ApplyConfig cfg g1 = some g1 := by
  refine ⟨_, _, ApplyConfig_stateOf w1 cv1 sv0 sv1 mv0 mv1 in0 in1 cfg,
    ApplyConfig_stateOf w2 cv2 sv0 sv1 mv0 mv1 in0 in1 cfg, rfl, ?_⟩
  rw [ApplyConfig_stateOf]

/-! ## Lemmas on construction -/

section Construction

variable {σ : Type}

theorem andThen_ok {α β : Type} (x : Thrower σ α) (f : World σ → α → Thrower σ β)
    (w : World σ) (a : α) (h : x = (w, .ok a)) : x.andThen f = f w a := by
  subst h
  rfl

theorem andThen_error {α β : Type} (x : Thrower σ α) (f : World σ → α → Thrower σ β)
    (w : World σ) (ex : Thrown) (h : x = (w, .error ex)) :
    x.andThen f = (w, .error ex) := by
  subst h
  rfl

theorem andThen_eq_ok {α β : Type} (x : Thrower σ α) (f : World σ → α → Thrower σ β)
    (w : World σ) (b : β) (h : x.andThen f = (w, .ok b)) :
    ∃ w1 a, x = (w1, .ok a) ∧ f w1 a = (w, .ok b) := by
  rcases x with ⟨w1, a | a⟩
  · simp [Thrower.andThen] at h
  · exact ⟨w1, a, rfl, h⟩

/-- What the slot constructor returns, by the failure raised. -/
theorem ctor_cases (E : Engines σ) (t : CpuType) (w : World σ) :
    (Spec.failure E t = none ∧
      ∃ w1, CpuInitializer.ctor E t w =
        (w1, .ok { MyCpu := some w.next, ExThrown := none })) ∨
    (∃ ex r, Spec.failure E t = some ex ∧ Spec.record ex = some r ∧
      ∃ w1, CpuInitializer.ctor E t w =
        (w1, .ok { MyCpu := none, ExThrown := some r })) ∨
    (∃ k, Spec.failure E t = some (.other k) ∧
      ∃ w1, CpuInitializer.ctor E t w = (w1, .error (.other k))) := by
  unfold CpuInitializer.ctor Spec.failure
  cases hc : E.create t with
  | error ex =>
      cases ex <;> simp [hc, CpuInitializer.handlers, Spec.record]
  | ok obj =>
      cases hr : E.Reserve obj with
      | error ex =>
          cases ex <;> simp [hc, hr, CpuInitializer.handlers, Spec.record, World.emit, World.store]
      | ok obj2 => simp [hc, hr, World.emit, World.store]

/-- The calls the slot constructor makes. -/
theorem ctor_log (E : Engines σ) (t : CpuType) (w : World σ) :
    (CpuInitializer.ctor E t w).1.log = w.log ++ Spec.slotEvents E t w.next := by
  unfold CpuInitializer.ctor Spec.slotEvents
  cases hc : E.create t with
  | error ex =>
      cases ex <;> simp [hc, CpuInitializer.handlers, Spec.reported, World.emit]
  | ok obj =>
      cases hr : E.Reserve obj with
      | error ex =>
          cases ex <;>
            simp [hc, hr, CpuInitializer.handlers, Spec.reported, World.emit, World.store]
      | ok obj2 => simp [hc, hr, World.emit, World.store]

/-- The addresses the slot constructor takes. -/
theorem ctor_next (E : Engines σ) (t : CpuType) (w : World σ) :
    (CpuInitializer.ctor E t w).1.next = w.next + Spec.created E t := by
  unfold CpuInitializer.ctor Spec.created
  cases hc : E.create t with
  | error ex =>
      cases ex <;> simp [hc, CpuInitializer.handlers, World.emit]
  | ok obj =>
      cases hr : E.Reserve obj with
      | error ex =>
          cases ex <;> simp [hc, hr, CpuInitializer.handlers, World.emit, World.store]
      | ok obj2 => simp [hc, hr, World.emit, World.store]

/-- A slot that the constructor returned obeys the slot invariant. -/
theorem ctor_ok_inv (E : Engines σ) (t : CpuType) (w w1 : World σ)
    (s : CpuInitializerBase) (h : CpuInitializer.ctor E t w = (w1, .ok s)) :
    (Spec.failure E t = none ∧ s = { MyCpu := some w.next, ExThrown := none }) ∨
    (∃ ex r, Spec.failure E t = some ex ∧ Spec.record ex = some r ∧
      s = { MyCpu := none, ExThrown := some r }) := by
  rcases ctor_cases E t w with ⟨hf, w2, h2⟩ | ⟨ex, r, hf, hr, w2, h2⟩ | ⟨k, hf, w2, h2⟩
  · rw [h2] at h
    simp only [Prod.mk.injEq, Except.ok.injEq] at h
    exact Or.inl ⟨hf, h.2.symm⟩
  · rw [h2] at h
    simp only [Prod.mk.injEq, Except.ok.injEq] at h
    exact Or.inr ⟨ex, r, hf, hr, h.2.symm⟩
  · rw [h2] at h
    simp at h

/-- A slot constructor that meets no propagating failure returns. -/
theorem ctor_returns (E : Engines σ) (t : CpuType) (w : World σ)
    (hp : Spec.propagates E t = false) :
    ∃ w1 s, CpuInitializer.ctor E t w = (w1, .ok s) := by
  rcases ctor_cases E t w with ⟨_, w2, h2⟩ | ⟨ex, r, _, _, w2, h2⟩ | ⟨k, hf, w2, h2⟩
  · exact ⟨_, _, h2⟩
  · exact ⟨_, _, h2⟩
  · simp [Spec.propagates, hf] at hp

/-- A slot constructor that returns met no propagating failure. -/
theorem ctor_ok_not_propagates (E : Engines σ) (t : CpuType) (w w1 : World σ)
    (s : CpuInitializerBase) (h : CpuInitializer.ctor E t w = (w1, .ok s)) :
    Spec.propagates E t = false := by
  rcases ctor_ok_inv E t w w1 s h with ⟨hf, _⟩ | ⟨ex, r, hf, hr, _⟩
  · simp [Spec.propagates, hf]
  · cases ex <;> simp_all [Spec.propagates, Spec.record]

/-- A slot constructor that throws met a propagating failure. -/
theorem ctor_error_propagates (E : Engines σ) (t : CpuType) (w w1 : World σ)
    (ex : Thrown) (h : CpuInitializer.ctor E t w = (w1, .error ex)) :
    Spec.propagates E t = true := by
  rcases ctor_cases E t w with ⟨_, w2, h2⟩ | ⟨ex2, r, _, _, w2, h2⟩ | ⟨k, hf, w2, h2⟩
  · rw [h2] at h
    simp at h
  · rw [h2] at h
    simp at h
  · simp [Spec.propagates, hf]

/-- A pair of slots that was returned: both slot constructors returned. -/
theorem newPair_ok_inv (E : Engines σ) (a b : CpuType) (w w2 : World σ) (v : SlotVec)
    (h : CpuInitializerSet.newPair E a b w = (w2, .ok v)) :
    ∃ wa s0 s1,
      CpuInitializer.ctor E a w = (wa, .ok s0) ∧
      CpuInitializer.ctor E b wa = (w2, .ok s1) ∧
      v = [some s0, some s1] := by
  unfold CpuInitializerSet.newPair at h
  obtain ⟨wa, s0, h0, h⟩ := andThen_eq_ok _ _ _ _ h
  obtain ⟨wb, s1, h1, h⟩ := andThen_eq_ok _ _ _ _ h
  simp only [Prod.mk.injEq, Except.ok.injEq] at h
  obtain ⟨hw, hv⟩ := h
  subst hw
  exact ⟨wa, s0, s1, h0, h1, hv.symm⟩

/-- A registry that the constructor returned holds six slots, each returned by
its slot constructor. -/
theorem setCtor_ok_inv (E : Engines σ) (w w6 : World σ) (set : CpuInitializerSet)
    (h : CpuInitializerSet.ctor E w = (w6, .ok set)) :
    ∃ wa wb wc wd we sv0 sv1 mv0 mv1 in0 in1,
      CpuInitializer.ctor E .recSuperVU0 w = (wa, .ok sv0) ∧
      CpuInitializer.ctor E .recSuperVU1 wa = (wb, .ok sv1) ∧
      CpuInitializer.ctor E .recMicroVU0 wb = (wc, .ok mv0) ∧
      CpuInitializer.ctor E .recMicroVU1 wc = (wd, .ok mv1) ∧
      CpuInitializer.ctor E .InterpVU0 wd = (we, .ok in0) ∧
      CpuInitializer.ctor E .InterpVU1 we = (w6, .ok in1) ∧
      set = CpuInitializerSet.build sv0 sv1 mv0 mv1 in0 in1 := by
  unfold CpuInitializerSet.ctor at h
  obtain ⟨w2, sv, hsv, h⟩ := andThen_eq_ok _ _ _ _ h
  obtain ⟨w4, mv, hmv, h⟩ := andThen_eq_ok _ _ _ _ h
  obtain ⟨w6b, iv, hiv, h⟩ := andThen_eq_ok _ _ _ _ h
  obtain ⟨wa, sv0, sv1, h0, h1, hsv2⟩ := newPair_ok_inv E _ _ _ _ _ hsv
  obtain ⟨wc, mv0, mv1, h2, h3, hmv2⟩ := newPair_ok_inv E _ _ _ _ _ hmv
  obtain ⟨we, in0, in1, h4, h5, hiv2⟩ := newPair_ok_inv E _ _ _ _ _ hiv
  simp only [Prod.mk.injEq, Except.ok.injEq] at h
  obtain ⟨hw, hset⟩ := h
  subst hw hsv2 hmv2 hiv2
  exact ⟨wa, w2, wc, w4, we, sv0, sv1, mv0, mv1, in0, in1,
    h0, h1, h2, h3, h4, h5, hset.symm⟩

/-- When `Initialize` returns, the registry is the one the constructor built
and the Active Pointers are untouched. -/
theorem Initialize_ok_inv (E : Engines σ) (g0 g : State σ)
    (h : Initialize E g0 = some (g, .ok ())) :
    ∃ w set, CpuInitializerSet.ctor E g0.world = (w, .ok set) ∧
      g.CpuProviders = some set ∧ g.cpu_vu = g0.cpu_vu := by
  unfold Initialize at h
  rcases hc : CpuInitializerSet.ctor E g0.world with ⟨w, ex | set⟩
  · simp [hc] at h
  · simp only [hc] at h
    refine ⟨w, set, rfl, ?_⟩
    cases hold : g0.CpuProviders with
    | none =>
        simp only [hold, Option.some.injEq, Prod.mk.injEq, and_true] at h
        subst h
        exact ⟨rfl, rfl⟩
    | some old =>
        simp only [hold] at h
        cases hd : old.dtor E w with
        | none => simp [hd] at h
        | some w2 =>
            simp only [hd, Option.some.injEq, Prod.mk.injEq, and_true] at h
            subst h
            exact ⟨rfl, rfl⟩

theorem state_eq_stateOf (g : State σ) (sv0 sv1 mv0 mv1 in0 in1 : CpuInitializerBase)
    (h : g.CpuProviders = some (CpuInitializerSet.build sv0 sv1 mv0 mv1 in0 in1)) :
    g = stateOf g.world g.cpu_vu sv0 sv1 mv0 mv1 in0 in1 := by
  rcases g with ⟨w, cv, reg⟩
  simp only at h
  subst h
  rfl

/-- The slot invariant of a returned slot, by whether construction raised. -/
theorem slot_facts (E : Engines σ) (t : CpuType) (w w1 : World σ)
    (s : CpuInitializerBase) (h : CpuInitializer.ctor E t w = (w1, .ok s)) :
    Xor' (s.IsAvailable = true) (s.ExThrown ≠ none) ∧
    (if (Spec.failure E t).isSome then
        s.GetPtr = none ∧ s.IsAvailable = false ∧ s.ExThrown ≠ none
      else s.GetPtr ≠ none ∧ s.IsAvailable = true ∧ s.ExThrown = none) := by
  rcases ctor_ok_inv E t w w1 s h with ⟨hf, hs⟩ | ⟨ex, r, hf, _, hs⟩
  · subst hs
    simp [hf, Xor', CpuInitializerBase.IsAvailable, CpuInitializerBase.GetPtr]
  · subst hs
    simp [hf, Xor', CpuInitializerBase.IsAvailable, CpuInitializerBase.GetPtr]

/-- What a returned slot holds, by the failure raised. -/
theorem slot_captured (E : Engines σ) (t : CpuType) (w w1 : World σ)
    (s : CpuInitializerBase) (h : CpuInitializer.ctor E t w = (w1, .ok s)) :
    match Spec.failure E t with
    | none => some s.IsAvailable = some true ∧ some s.ExThrown = some none
    | some ex =>
        some s.IsAvailable = some false ∧ some s.ExThrown = some (Spec.record ex) ∧
          Spec.record ex ≠ none := by
  rcases ctor_ok_inv E t w w1 s h with ⟨hf, hs⟩ | ⟨ex, r, hf, hr, hs⟩
  · subst hs
    simp [hf, CpuInitializerBase.IsAvailable]
  · subst hs
    simp [hf, hr, CpuInitializerBase.IsAvailable]

/-- The address a returned slot holds is the one `new` handed out, and `new`
never hands it out again. -/
theorem ctor_ptr (E : Engines σ) (t : CpuType) (w w1 : World σ)
    (s : CpuInitializerBase) (h : CpuInitializer.ctor E t w = (w1, .ok s)) (q : Nat) :
    w.next ≤ w1.next ∧ (s.MyCpu = some q → q = w.next ∧ w1.next = w.next + 1) := by
  have hn := ctor_next E t w
  rw [h] at hn
  simp only at hn
  rcases ctor_ok_inv E t w w1 s h with ⟨hf, hs⟩ | ⟨ex, r, _, _, hs⟩
  · have hc : Spec.created E t = 1 := by
      unfold Spec.failure at hf
      unfold Spec.created
      cases hcr : E.create t with
      | error ex => simp [hcr] at hf
      | ok obj => rfl
    subst hs
    refine ⟨by omega, ?_⟩
    intro hq
    simp only [Option.some.injEq] at hq
    exact ⟨hq.symm, by omega⟩
  · subst hs
    refine ⟨by omega, ?_⟩
    intro hq
    simp at hq

/-- In a registry built by `Initialize`, the two units never share an engine:
after any `ApplyConfig` over that registry the two Active Pointers are not the
same non-null address. -/
theorem active_pointers_distinct (E : Engines σ) (g0 g1 : State σ)
    (h : Initialize E g0 = some (g1, .ok ())) (w : World σ) (cv : CpuVu)
    (cfg : RecompilerOptions) :
    ∃ g, ApplyConfig cfg { g1 with world := w, cpu_vu := cv } = some g ∧
      ∀ p : Nat, ¬ (g.cpu_vu.vu0 = some p ∧ g.cpu_vu.vu1 = some p) := by
  obtain ⟨w6, set, hc, hreg, _⟩ := Initialize_ok_inv E g0 g1 h
  obtain ⟨wa, wb, wc, wd, we, sv0, sv1, mv0, mv1, in0, in1,
    h0, h1, h2, h3, h4, h5, hset⟩ := setCtor_ok_inv E _ _ _ hc
  subst hset
  have e : ({ g1 with world := w, cpu_vu := cv } : State σ) =
      stateOf w cv sv0 sv1 mv0 mv1 in0 in1 := by
    simp only [stateOf, hreg]
  rw [e, ApplyConfig_stateOf]
  refine ⟨_, rfl, ?_⟩
  intro p
  obtain ⟨l0, f0⟩ := ctor_ptr E _ _ _ _ h0 p
  obtain ⟨l1, f1⟩ := ctor_ptr E _ _ _ _ h1 p
  obtain ⟨l2, f2⟩ := ctor_ptr E _ _ _ _ h2 p
  obtain ⟨l3, f3⟩ := ctor_ptr E _ _ _ _ h3 p
  obtain ⟨l4, f4⟩ := ctor_ptr E _ _ _ _ h4 p
  obtain ⟨l5, f5⟩ := ctor_ptr E _ _ _ _ h5 p
  rcases cfg with ⟨e0, e1, m0, m1⟩
  simp only [stateOf, CpuInitializerBase.GetPtr]
  rintro ⟨hv0, hv1⟩
  cases e0 <;> cases e1 <;> cases m0 <;> cases m1 <;>
    simp only [Bool.false_eq_true, if_true, if_false] at hv0 hv1 <;>
    first
      | (have a := f0 hv0; have b := f1 hv1; omega)
      | (have a := f0 hv0; have b := f3 hv1; omega)
      | (have a := f0 hv0; have b := f5 hv1; omega)
      | (have a := f2 hv0; have b := f1 hv1; omega)
      | (have a := f2 hv0; have b := f3 hv1; omega)
      | (have a := f2 hv0; have b := f5 hv1; omega)
      | (have a := f4 hv0; have b := f1 hv1; omega)
      | (have a := f4 hv0; have b := f3 hv1; omega)
      | (have a := f4 hv0; have b := f5 hv1; omega)

end Construction

/-! ## Slot and registry construction -/

/-- C5: whenever `Initialize` returns, every engine type `e` and unit `u` has a
slot for which exactly one of "`IsProviderAvailable` is true" and
"`GetException` is non-null" holds. If instantiating or reserving that engine
raised, the handle is null and the failure record non-null; if neither raised,
the handle is non-null and the failure record null. -/
theorem C5_available_xor_failure_recorded {σ : Type} (E : Engines σ)
    (g0 g : State σ) (h : Initialize E g0 = some (g, .ok ()))
    (e : Spec.Engine) (u : Spec.UnitIndex) :
    ∃ a x p,
      IsProviderAvailable g e.id u.id = some a ∧
      GetException g e.id u.id = some x ∧
      GetVUProvider g e.id u.id = some p ∧
      Xor' (a = true) (x ≠ none) ∧
      (if (Spec.failure E (Spec.cpuType e u)).isSome then
          p = none ∧ a = false ∧ x ≠ none
        else p ≠ none ∧ a = true ∧ x = none) := by
  obtain ⟨w, set, hc, hreg, _⟩ := Initialize_ok_inv E g0 g h
  obtain ⟨wa, wb, wc, wd, we, sv0, sv1, mv0, mv1, in0, in1,
    h0, h1, h2, h3, h4, h5, hset⟩ := setCtor_ok_inv E _ _ _ hc
  subst hset
  rw [state_eq_stateOf g _ _ _ _ _ _ hreg, IsProviderAvailable_stateOf,
    GetException_stateOf, GetVUProvider_stateOf]
  refine ⟨_, _, _, rfl, rfl, rfl, ?_⟩
  cases e <;> cases u
  · exact slot_facts E _ _ _ _ h4
  · exact slot_facts E _ _ _ _ h5
  · exact slot_facts E _ _ _ _ h0
  · exact slot_facts E _ _ _ _ h1
  · exact slot_facts E _ _ _ _ h2
  · exact slot_facts E _ _ _ _ h3

/-- Witness for C5: at process start with engines of which only
`new recMicroVU1()` throws, `Initialize` returns; the microVU slot of unit 1 is
unavailable with a failure record. -/
theorem C5_available_xor_failure_recorded_witness :
    Initialize Example.micro1Throws (boot Example.world) =
      some (Example.initialized, .ok ()) ∧
    ∃ a x p,
      IsProviderAvailable Example.initialized PROVIDER_MICROVU VUCORE_1 = some a ∧
      GetException Example.initialized PROVIDER_MICROVU VUCORE_1 = some x ∧
      GetVUProvider Example.initialized PROVIDER_MICROVU VUCORE_1 = some p ∧
      Xor' (a = true) (x ≠ none) ∧
      (if (Spec.failure Example.micro1Throws .recMicroVU1).isSome then
          p = none ∧ a = false ∧ x ≠ none
        else p ≠ none ∧ a = true ∧ x = none) :=
  ⟨rfl, C5_available_xor_failure_recorded Example.micro1Throws (boot Example.world)
    Example.initialized rfl .RecompilerModern .u1⟩

/-- C6, as stated, fails: a failure of a class other than the two the slot
catches leaves the slot constructor, the registry constructor and
`Initialize`. -/
theorem C6_counterexample_uncaught_failure_propagates :
    (Initialize Example.super0ThrowsOther (boot Example.world)).map (fun r => r.2) =
      some (.error (.other 0)) ∧
    (Initialize Example.super0ThrowsOther (boot Example.world)).map
      (fun r => r.1.CpuProviders) = some none := by
  exact ⟨rfl, rfl⟩

/-- C6, amended: when every failure that instantiating or reserving an engine
raises is an `Exception::RuntimeError` or a `std::runtime_error` (the two
classes the slot catches), then whichever of the six engines fail, `Initialize`
run at process start returns with all six slots in the registry; a slot whose
engine raised is unavailable and holds the record of that failure, and every
other slot is available with no failure record. -/
theorem C6_caught_failures_never_propagate {σ : Type} (E : Engines σ) (w : World σ)
    (hp : ∀ t, Spec.propagates E t = false) :
    ∃ g, Initialize E (boot w) = some (g, .ok ()) ∧
      ∀ (e : Spec.Engine) (u : Spec.UnitIndex),
        match Spec.failure E (Spec.cpuType e u) with
        | none =>
            IsProviderAvailable g e.id u.id = some true ∧
            GetException g e.id u.id = some none
        | some ex =>
            IsProviderAvailable g e.id u.id = some false ∧
            GetException g e.id u.id = some (Spec.record ex) ∧
            Spec.record ex ≠ none := by
  obtain ⟨wa, sv0, h0⟩ := ctor_returns E .recSuperVU0 w (hp _)
  obtain ⟨wb, sv1, h1⟩ := ctor_returns E .recSuperVU1 wa (hp _)
  obtain ⟨wc, mv0, h2⟩ := ctor_returns E .recMicroVU0 wb (hp _)
  obtain ⟨wd, mv1, h3⟩ := ctor_returns E .recMicroVU1 wc (hp _)
  obtain ⟨we, in0, h4⟩ := ctor_returns E .InterpVU0 wd (hp _)
  obtain ⟨wf, in1, h5⟩ := ctor_returns E .InterpVU1 we (hp _)
  have hctor : CpuInitializerSet.ctor E w =
      (wf, .ok (CpuInitializerSet.build sv0 sv1 mv0 mv1 in0 in1)) := by
    simp only [CpuInitializerSet.ctor, CpuInitializerSet.newPair, Thrower.andThen,
      h0, h1, h2, h3, h4, h5, CpuInitializerSet.build]
  refine ⟨stateOf wf { vu0 := none, vu1 := none } sv0 sv1 mv0 mv1 in0 in1, ?_, ?_⟩
  · simp only [Initialize, boot, hctor, stateOf]
  · intro e u
    rw [IsProviderAvailable_stateOf, GetException_stateOf]
    cases e <;> cases u
    · exact slot_captured E _ _ _ _ h4
    · exact slot_captured E _ _ _ _ h5
    · exact slot_captured E _ _ _ _ h0
    · exact slot_captured E _ _ _ _ h1
    · exact slot_captured E _ _ _ _ h2
    · exact slot_captured E _ _ _ _ h3

/-- Witness for C6 (amended): the engines of which only `new recMicroVU1()`
throws an `Exception::RuntimeError` raise no uncaught failure, and `Initialize`
returns with that one slot unavailable and its failure recorded. -/
theorem C6_caught_failures_never_propagate_witness :
    (∀ t, Spec.propagates Example.micro1Throws t = false) ∧
    ∃ g, Initialize Example.micro1Throws (boot Example.world) = some (g, .ok ()) ∧
      IsProviderAvailable g PROVIDER_MICROVU VUCORE_1 = some false ∧
      GetException g PROVIDER_MICROVU VUCORE_1 = some (some (.Clone 0)) ∧
      IsProviderAvailable g PROVIDER_SUPERVU VUCORE_0 = some true := by
  have hp : ∀ t, Spec.propagates Example.micro1Throws t = false := by
    intro t
    cases t <;> rfl
  refine ⟨hp, ?_⟩
  obtain ⟨g, hg, hall⟩ :=
    C6_caught_failures_never_propagate Example.micro1Throws Example.world hp
  have hm := hall .RecompilerModern .u1
  have hs := hall .RecompilerLegacy .u0
  exact ⟨g, hg, hm.1, hm.2.1, hs.1⟩

/-! ## Construction order -/

section Order

variable {σ : Type}

theorem slotEvents_head (E : Engines σ) (t : CpuType) (p : Ptr) :
    ∃ tl, Spec.slotEvents E t p = .construct t :: tl := by
  unfold Spec.slotEvents
  split
  · exact ⟨_, rfl⟩
  · split
    · exact ⟨_, rfl⟩
    · exact ⟨_, rfl⟩

theorem reported_no_legacy (ex : Thrown) :
    (Spec.reported ex).any Spec.isLegacyBuild = false := by
  cases ex <;> rfl

theorem reported_no_other (ex : Thrown) :
    (Spec.reported ex).any Spec.isOtherBuild = false := by
  cases ex <;> rfl

theorem slotEvents_no_legacy (E : Engines σ) (t : CpuType) (p : Ptr)
    (h0 : t ≠ .recSuperVU0) (h1 : t ≠ .recSuperVU1) :
    (Spec.slotEvents E t p).any Spec.isLegacyBuild = false := by
  unfold Spec.slotEvents
  split
  · rw [List.any_cons, reported_no_legacy]
    cases t <;> simp_all [Spec.isLegacyBuild]
  · split
    · cases t <;> simp_all [Spec.isLegacyBuild]
    · rw [List.any_append, List.any_append, reported_no_legacy]
      cases t <;> simp_all [Spec.isLegacyBuild]

theorem slotEvents_no_other (E : Engines σ) (t : CpuType) (p : Ptr)
    (h : t = .recSuperVU0 ∨ t = .recSuperVU1) :
    (Spec.slotEvents E t p).any Spec.isOtherBuild = false := by
  unfold Spec.slotEvents
  split
  · rw [List.any_cons, reported_no_other]
    rcases h with h | h <;> subst h <;> simp [Spec.isOtherBuild]
  · split
    · rcases h with h | h <;> subst h <;> simp [Spec.isOtherBuild]
    · rw [List.any_append, List.any_append, reported_no_other]
      rcases h with h | h <;> subst h <;> simp [Spec.isOtherBuild]

theorem legacyEvents_no_other (E : Engines σ) (p : Ptr) :
    (Spec.legacyEvents E p).any Spec.isOtherBuild = false := by
  unfold Spec.legacyEvents
  rw [List.any_append, slotEvents_no_other E _ _ (Or.inl rfl)]
  split
  · rfl
  · rw [slotEvents_no_other E _ _ (Or.inr rfl)]
    rfl

/-- The log after a sequence extends the log before it by events that build no
legacy engine, when both parts do. -/
theorem andThen_tail {α β : Type} (x : Thrower σ α) (f : World σ → α → Thrower σ β)
    (w : World σ)
    (hx : ∃ rest, x.1.log = w.log ++ rest ∧ rest.any Spec.isLegacyBuild = false)
    (hf : ∀ w1 a, ∃ rest,
      (f w1 a).1.log = w1.log ++ rest ∧ rest.any Spec.isLegacyBuild = false) :
    ∃ rest, (x.andThen f).1.log = w.log ++ rest ∧
      rest.any Spec.isLegacyBuild = false := by
  obtain ⟨r1, h1, hr1⟩ := hx
  rcases x with ⟨w1, ex | a⟩
  · exact ⟨r1, h1, hr1⟩
  · obtain ⟨r2, h2, hr2⟩ := hf w1 a
    refine ⟨r1 ++ r2, ?_, ?_⟩
    · show (f w1 a).1.log = w.log ++ (r1 ++ r2)
      rw [h2]
      simp only at h1
      rw [h1, List.append_assoc]
    · rw [List.any_append, hr1, hr2]
      rfl

theorem ctor_tail (E : Engines σ) (t : CpuType) (w : World σ)
    (h0 : t ≠ .recSuperVU0) (h1 : t ≠ .recSuperVU1) :
    ∃ rest, (CpuInitializer.ctor E t w).1.log = w.log ++ rest ∧
      rest.any Spec.isLegacyBuild = false :=
  ⟨_, ctor_log E t w, slotEvents_no_legacy E t _ h0 h1⟩

theorem newPair_tail (E : Engines σ) (a b : CpuType) (w : World σ)
    (ha0 : a ≠ .recSuperVU0) (ha1 : a ≠ .recSuperVU1)
    (hb0 : b ≠ .recSuperVU0) (hb1 : b ≠ .recSuperVU1) :
    ∃ rest, (CpuInitializerSet.newPair E a b w).1.log = w.log ++ rest ∧
      rest.any Spec.isLegacyBuild = false := by
  unfold CpuInitializerSet.newPair
  refine andThen_tail _ _ w (ctor_tail E a w ha0 ha1) ?_
  intro w1 s0
  refine andThen_tail _ _ w1 (ctor_tail E b w1 hb0 hb1) ?_
  intro w2 s1
  exact ⟨[], by simp, rfl⟩

/-- The calls made while the two legacy slots are built. -/
theorem newPair_legacy_log (E : Engines σ) (w : World σ) :
    (CpuInitializerSet.newPair E .recSuperVU0 .recSuperVU1 w).1.log =
      w.log ++ Spec.legacyEvents E w.next := by
  unfold CpuInitializerSet.newPair Spec.legacyEvents
  have hl := ctor_log E .recSuperVU0 w
  have hn := ctor_next E .recSuperVU0 w
  rcases h0 : CpuInitializer.ctor E .recSuperVU0 w with ⟨wa, ex | s0⟩
  · rw [h0] at hl
    simp only at hl
    rw [ctor_error_propagates E _ _ _ _ h0]
    simp [Thrower.andThen, hl]
  · rw [h0] at hl hn
    simp only at hl hn
    rw [ctor_ok_not_propagates E _ _ _ _ h0]
    have hl1 := ctor_log E .recSuperVU1 wa
    rcases h1 : CpuInitializer.ctor E .recSuperVU1 wa with ⟨wb, ex | s1⟩
    · rw [h1] at hl1
      simp only at hl1
      simp [Thrower.andThen, h1, hl1, hl, hn]
    · rw [h1] at hl1
      simp only at hl1
      simp [Thrower.andThen, h1, hl1, hl, hn]

/-- The calls made while the microVU and interpreter slots are built, whatever
is done with the slots afterwards. -/
theorem others_tail (E : Engines σ) (w : World σ)
    (k : SlotVec → SlotVec → CpuInitializerSet) :
    ∃ rest,
      (Thrower.andThen (CpuInitializerSet.newPair E .recMicroVU0 .recMicroVU1 w)
        fun w mv =>
          Thrower.andThen (CpuInitializerSet.newPair E .InterpVU0 .InterpVU1 w)
            fun w iv => (w, Except.ok (k mv iv))).1.log = w.log ++ rest ∧
      rest.any Spec.isLegacyBuild = false := by
  refine andThen_tail _ _ w
    (newPair_tail E _ _ w (by decide) (by decide) (by decide) (by decide)) ?_
  intro w3 mv
  refine andThen_tail _ _ w3
    (newPair_tail E _ _ w3 (by decide) (by decide) (by decide) (by decide)) ?_
  intro w4 iv
  exact ⟨[], by simp, rfl⟩

/-- The calls made by the registry constructor: first those of the two legacy
slots, then calls that build no legacy engine; the second part is empty unless
both legacy slots were built without a failure leaving them. -/
theorem setCtor_log (E : Engines σ) (w : World σ) :
    ∃ rest, (CpuInitializerSet.ctor E w).1.log =
        w.log ++ Spec.legacyEvents E w.next ++ rest ∧
      rest.any Spec.isLegacyBuild = false ∧
      ((Spec.propagates E .recSuperVU0 = false ∧
          Spec.propagates E .recSuperVU1 = false) ∨ rest = []) := by
  have hl := newPair_legacy_log E w
  unfold CpuInitializerSet.ctor
  rcases hsv : CpuInitializerSet.newPair E .recSuperVU0 .recSuperVU1 w with ⟨w2, ex | sv⟩
  · rw [hsv] at hl
    simp only at hl
    exact ⟨[], by simp [Thrower.andThen, hl], rfl, Or.inr rfl⟩
  · rw [hsv] at hl
    simp only at hl
    obtain ⟨wa, s0, s1, h0, h1, _⟩ := newPair_ok_inv E _ _ _ _ _ hsv
    obtain ⟨rest, hrest, hany⟩ := others_tail E w2 (fun mv iv =>
      CpuInitializerSet.mk (((CoreMap.assign [] PROVIDER_SUPERVU sv).assign
        PROVIDER_MICROVU mv).assign PROVIDER_INTERPRETER iv))
    refine ⟨rest, ?_, hany, Or.inl ⟨ctor_ok_not_propagates E _ _ _ _ h0,
      ctor_ok_not_propagates E _ _ _ _ h1⟩⟩
    rw [← hl]
    exact hrest

end Order

/-- C10: `Initialize` run at process start always terminates (returning or
letting a failure out), and the calls it has made by then are, in this order:
the calls that build the legacy slot of unit 0 (instantiate, then reserve if
instantiation returned), those that build the legacy slot of unit 1, and then
the remaining calls. The first part instantiates or reserves no microVU or
interpreter engine, the remaining calls instantiate or reserve no legacy
engine, and there are remaining calls only if both legacy slots were built in
full, whether their engines failed or not. -/
theorem C10_legacy_slots_built_first {σ : Type} (E : Engines σ) (w : World σ) :
    ∃ g r rest, Initialize E (boot w) = some (g, r) ∧
      g.world.log = w.log ++ Spec.legacyEvents E w.next ++ rest ∧
      (Spec.legacyEvents E w.next).any Spec.isOtherBuild = false ∧
      rest.any Spec.isLegacyBuild = false ∧
      (rest = [] ∨
        (Spec.legacyEvents E w.next =
            Spec.slotEvents E .recSuperVU0 w.next ++
              Spec.slotEvents E .recSuperVU1 (w.next + Spec.created E .recSuperVU0) ∧
          ∃ tl0 tl1,
            Spec.slotEvents E .recSuperVU0 w.next = .construct .recSuperVU0 :: tl0 ∧
            Spec.slotEvents E .recSuperVU1 (w.next + Spec.created E .recSuperVU0) =
              .construct .recSuperVU1 :: tl1)) := by
  obtain ⟨rest, hlog, hany, hdone⟩ := setCtor_log E w
  have hfin : rest = [] ∨
      (Spec.legacyEvents E w.next =
          Spec.slotEvents E .recSuperVU0 w.next ++
            Spec.slotEvents E .recSuperVU1 (w.next + Spec.created E .recSuperVU0) ∧
        ∃ tl0 tl1,
          Spec.slotEvents E .recSuperVU0 w.next = .construct .recSuperVU0 :: tl0 ∧
          Spec.slotEvents E .recSuperVU1 (w.next + Spec.created E .recSuperVU0) =
            .construct .recSuperVU1 :: tl1) := by
    rcases hdone with ⟨hp0, _⟩ | hnil
    · obtain ⟨tl0, h0⟩ := slotEvents_head E .recSuperVU0 w.next
      obtain ⟨tl1, h1⟩ :=
        slotEvents_head E .recSuperVU1 (w.next + Spec.created E .recSuperVU0)
      refine Or.inr ⟨?_, tl0, tl1, h0, h1⟩
      simp [Spec.legacyEvents, hp0]
    · exact Or.inl hnil
  rcases hc : CpuInitializerSet.ctor E w with ⟨w1, ex | set⟩
  · rw [hc] at hlog
    refine ⟨State.mk w1 (CpuVu.mk none none) none,
      .error ex, rest, ?_, hlog, legacyEvents_no_other E _, hany, hfin⟩
    simp only [Initialize, boot, hc]
  · rw [hc] at hlog
    refine ⟨State.mk w1 (CpuVu.mk none none) (some set),
      .ok (), rest, ?_, hlog, legacyEvents_no_other E _, hany, hfin⟩
    simp only [Initialize, boot, hc]

/-! ## Emergency recovery -/

section Recovery

variable {σ : Type}

theorem shrink_exact_or_overflow (bits S : Nat) :
    shrink bits S = S * 2 / 3 ∨ 2 ^ bits ≤ S * 2 := by
  by_cases h : S * 2 < 2 ^ bits
  · left
    unfold shrink
    rw [Nat.mod_eq_of_lt h]
  · right
    omega

theorem shrink_900 (bits : Nat) (h : 11 ≤ bits) :
    shrink bits 900 = 600 ∧ shrink bits 600 = 400 := by
  have h2 : 2 ^ 11 ≤ 2 ^ bits := Nat.pow_le_pow_right (by decide) h
  have h3 : (2 : Nat) ^ 11 = 2048 := by norm_num
  unfold shrink
  rw [Nat.mod_eq_of_lt (by omega), Nat.mod_eq_of_lt (by omega)]
  exact ⟨by norm_num, by norm_num⟩

theorem unit_log (E : Engines σ) (cpu : Option Ptr) (w : World σ) :
    (EmergencyResponse.unit E cpu w).log =
      w.log ++ Spec.recoveryCalls cpu (shrink E.uintBits (Spec.reserveOf E w cpu)) := by
  cases cpu <;>
    simp [EmergencyResponse.unit, Spec.recoveryCalls, Spec.reserveOf,
      World.GetCacheReserve, World.SetCacheReserve, World.Reset, World.emit, World.store]

theorem unit_heap_other (E : Engines σ) (cpu : Option Ptr) (p : Ptr) (w : World σ)
    (h : cpu ≠ some p) : (EmergencyResponse.unit E cpu w).heap p = w.heap p := by
  cases cpu with
  | none => rfl
  | some q =>
      have hq : p ≠ q := fun e => h (by rw [e])
      simp [EmergencyResponse.unit, World.GetCacheReserve, World.SetCacheReserve,
        World.Reset, World.emit, World.store, Function.update_noteq hq]

end Recovery

/-- C7, as stated, fails: on a 32-bit `uint`, for the reported reserve
`2 ^ 31` the doubling wraps to 0, so `SetCacheReserve` receives 0 and not
`floor(2 ^ 31 * 2 / 3) = 1431655765`. -/
theorem C7_counterexample_doubling_wraps :
    Spec.reserveOf Example.sound Example.overflowing.world
      Example.overflowing.cpu_vu.vu0 = 2147483648 ∧
    (EmergencyResponse Example.sound Example.overflowing).world.log =
      [.GetCacheReserve 3, .SetCacheReserve 3 0, .Reset 3] ∧
    (EmergencyResponse Example.sound Example.overflowing).world.log ≠
      Spec.recoveryCalls Example.overflowing.cpu_vu.vu0 (2147483648 * 2 / 3) ++
        Spec.recoveryCalls Example.overflowing.cpu_vu.vu1 0 := by
  refine ⟨rfl, by decide, by decide⟩

/-- C7, amended: in every state, the calls `EmergencyResponse` makes are, for
unit 0 and then for unit 1, exactly `GetCacheReserve`,
`SetCacheReserve((S * 2 mod 2^w) / 3)`, `Reset` on a non-null Active Pointer,
where `S` is the reserve that handle reports when its unit is reached and `w`
the width of `uint`, and no call at all for a null Active Pointer. Unless both
units share one handle, the reserve unit 1 reports is the one it had on entry.
The value set is `floor(S * 2 / 3)` whenever `S * 2 < 2^w`; from width 11 on,
reserve 900 becomes 600. -/
theorem C7_EmergencyResponse_call_sequence {σ : Type} (E : Engines σ) (g : State σ) :
    (EmergencyResponse E g).world.log =
      g.world.log ++
        Spec.recoveryCalls g.cpu_vu.vu0
          (shrink E.uintBits (Spec.reserveOf E g.world g.cpu_vu.vu0)) ++
        Spec.recoveryCalls g.cpu_vu.vu1
          (shrink E.uintBits
            (Spec.reserveOf E (EmergencyResponse.unit E g.cpu_vu.vu0 g.world)
              g.cpu_vu.vu1)) ∧
    (g.cpu_vu.vu0 = g.cpu_vu.vu1 ∨
      Spec.reserveOf E (EmergencyResponse.unit E g.cpu_vu.vu0 g.world) g.cpu_vu.vu1 =
        Spec.reserveOf E g.world g.cpu_vu.vu1) ∧
    (∀ S, shrink E.uintBits S = S * 2 / 3 ∨ 2 ^ E.uintBits ≤ S * 2) ∧
    (E.uintBits < 11 ∨ shrink E.uintBits 900 = 600) := by
  refine ⟨?_, ?_, fun S => shrink_exact_or_overflow _ S, ?_⟩
  · unfold EmergencyResponse
    simp only
    rw [unit_log, unit_log]
  · cases h1 : g.cpu_vu.vu1 with
    | none => exact Or.inr rfl
    | some q =>
        by_cases h : g.cpu_vu.vu0 = some q
        · exact Or.inl h
        · right
          simp only [Spec.reserveOf]
          rw [unit_heap_other E _ q _ h]
  · by_cases h : E.uintBits < 11
    · exact Or.inl h
    · exact Or.inr (shrink_900 _ (by omega)).1

section Frame

variable {σ : Type}

theorem unit_next (E : Engines σ) (cpu : Option Ptr) (w : World σ) :
    (EmergencyResponse.unit E cpu w).next = w.next := by
  cases cpu <;> rfl

theorem recoveryCalls_other (cpu : Option Ptr) (v : Nat) (p : Ptr)
    (h : cpu ≠ some p) : (Spec.recoveryCalls cpu v).any (Spec.isCallOn p) = false := by
  cases cpu with
  | none => rfl
  | some q =>
      have hq : q ≠ p := fun e => h (by rw [e])
      simp [Spec.recoveryCalls, Spec.isCallOn, hq]

/-- The recovery path with both Active Pointers null does nothing. -/
theorem EmergencyResponse_null (E : Engines σ) (g : State σ)
    (h0 : g.cpu_vu.vu0 = none) (h1 : g.cpu_vu.vu1 = none) :
    EmergencyResponse E g = g := by
  rcases g with ⟨w, ⟨v0, v1⟩, reg⟩
  simp only at h0 h1
  subst h0 h1
  rfl

end Frame

/-- C11: `EmergencyResponse` changes neither Active Pointer and nothing in the
registry, so every query (`GetCurrentProvider`, `GetVUProvider`,
`IsProviderAvailable`, `GetException`) answers after it as before; it creates
no engine; the state of every engine that is not behind one of the two Active
Pointers is untouched, and none of the calls it makes is on such an engine. -/
theorem C11_EmergencyResponse_keeps_selection {σ : Type} (E : Engines σ) (g : State σ) :
    (EmergencyResponse E g).cpu_vu = g.cpu_vu ∧
    (EmergencyResponse E g).CpuProviders = g.CpuProviders ∧
    (∀ provider vu_index : Int,
      GetCurrentProvider (EmergencyResponse E g) vu_index =
        GetCurrentProvider g vu_index ∧
      GetVUProvider (EmergencyResponse E g) provider vu_index =
        GetVUProvider g provider vu_index ∧
      IsProviderAvailable (EmergencyResponse E g) provider vu_index =
        IsProviderAvailable g provider vu_index ∧
      GetException (EmergencyResponse E g) provider vu_index =
        GetException g provider vu_index) ∧
    (EmergencyResponse E g).world.next = g.world.next ∧
    (∀ p : Ptr, g.cpu_vu.vu0 = some p ∨ g.cpu_vu.vu1 = some p ∨
      (EmergencyResponse E g).world.heap p = g.world.heap p) ∧
    ∃ calls, (EmergencyResponse E g).world.log = g.world.log ++ calls ∧
      ∀ p : Ptr, g.cpu_vu.vu0 = some p ∨ g.cpu_vu.vu1 = some p ∨
        calls.any (Spec.isCallOn p) = false := by
  refine ⟨rfl, rfl, fun _ _ => ⟨rfl, rfl, rfl, rfl⟩, ?_, ?_, ?_⟩
  · unfold EmergencyResponse
    simp only
    rw [unit_next, unit_next]
  · intro p
    by_cases h0 : g.cpu_vu.vu0 = some p
    · exact Or.inl h0
    · by_cases h1 : g.cpu_vu.vu1 = some p
      · exact Or.inr (Or.inl h1)
      · refine Or.inr (Or.inr ?_)
        unfold EmergencyResponse
        simp only
        rw [unit_heap_other E _ p _ h1, unit_heap_other E _ p _ h0]
  · refine ⟨Spec.recoveryCalls g.cpu_vu.vu0
        (shrink E.uintBits (Spec.reserveOf E g.world g.cpu_vu.vu0)) ++
      Spec.recoveryCalls g.cpu_vu.vu1
        (shrink E.uintBits
          (Spec.reserveOf E (EmergencyResponse.unit E g.cpu_vu.vu0 g.world)
            g.cpu_vu.vu1)), ?_, ?_⟩
    · unfold EmergencyResponse
      simp only
      rw [unit_log, unit_log, List.append_assoc]
    · intro p
      by_cases h0 : g.cpu_vu.vu0 = some p
      · exact Or.inl h0
      · by_cases h1 : g.cpu_vu.vu1 = some p
        · exact Or.inr (Or.inl h1)
        · refine Or.inr (Or.inr ?_)
          rw [List.any_append, recoveryCalls_other _ _ p h0,
            recoveryCalls_other _ _ p h1]
          rfl

/-- C12: `Initialize` run at process start terminates, and in the state it
leaves (whether it returned or let a failure out) `GetCurrentProvider` is null
for both units; `EmergencyResponse` in that state returns that very state, so
it makes no call and appends nothing to the log. -/
theorem C12_null_before_first_ApplyConfig {σ : Type} (E : Engines σ) (w : World σ) :
    ∃ g r, Initialize E (boot w) = some (g, r) ∧
      GetCurrentProvider g VUCORE_0 = some none ∧
      GetCurrentProvider g VUCORE_1 = some none ∧
      EmergencyResponse E g = g ∧
      (EmergencyResponse E g).world.log = g.world.log := by
  rcases hc : CpuInitializerSet.ctor E w with ⟨w1, ex | set⟩
  · refine ⟨State.mk w1 (CpuVu.mk none none) none, .error ex, ?_, rfl, rfl, rfl, rfl⟩
    simp only [Initialize, boot, hc]
  · refine ⟨State.mk w1 (CpuVu.mk none none) (some set), .ok (), ?_, rfl, rfl, rfl, rfl⟩
    simp only [Initialize, boot, hc]

/-- C17: `HadSomeFailures` never consults the interpreter slots. In every state
whatsoever, a snapshot with recompilation disabled for both units gives false;
on every registry and for every snapshot the answer is the same whatever the
two interpreter slots hold; and with recompilation disabled for both units
`ApplyConfig` selects the interpreter handles, so the Active Pointer of a unit
is null exactly when its interpreter slot is unavailable, with
`HadSomeFailures` still false. -/
theorem C17_HadSomeFailures_ignores_interpreters {σ : Type} (g : State σ)
    (w : World σ) (cv : CpuVu) (sv0 sv1 mv0 mv1 in0 in1 : CpuInitializerBase)
    (m0 m1 : Bool) :
    HadSomeFailures g
      { EnableVU0 := false, EnableVU1 := false, UseMicroVU0 := m0, UseMicroVU1 := m1 } =
      some false ∧
    (∀ (cfg : RecompilerOptions) (w2 : World σ) (cv2 : CpuVu)
        (other0 other1 : CpuInitializerBase),
      HadSomeFailures (stateOf w cv sv0 sv1 mv0 mv1 in0 in1) cfg =
        HadSomeFailures (stateOf w2 cv2 sv0 sv1 mv0 mv1 other0 other1) cfg) ∧
    ∃ g2, ApplyConfig
        { EnableVU0 := false, EnableVU1 := false, UseMicroVU0 := m0, UseMicroVU1 := m1 }
        (stateOf w cv sv0 sv1 mv0 mv1 in0 in1) = some g2 ∧
      HadSomeFailures g2
        { EnableVU0 := false, EnableVU1 := false, UseMicroVU0 := m0, UseMicroVU1 := m1 } =
        some false ∧
      GetCurrentProvider g2 VUCORE_0 = some in0.GetPtr ∧
      GetCurrentProvider g2 VUCORE_1 = some in1.GetPtr ∧
      (GetCurrentProvider g2 VUCORE_0 = some none ↔
        IsProviderAvailable (stateOf w cv sv0 sv1 mv0 mv1 in0 in1)
          PROVIDER_INTERPRETER VUCORE_0 = some false) ∧
      (GetCurrentProvider g2 VUCORE_1 = some none ↔
        IsProviderAvailable (stateOf w cv sv0 sv1 mv0 mv1 in0 in1)
          PROVIDER_INTERPRETER VUCORE_1 = some false) := by
  have hfalse : ∀ g3 : State σ, HadSomeFailures g3
      { EnableVU0 := false, EnableVU1 := false, UseMicroVU0 := m0, UseMicroVU1 := m1 } =
      some false := by
    intro g3
    cases m0 <;> cases m1 <;> rfl
  refine ⟨hfalse g, ?_, ?_⟩
  · intro cfg w2 cv2 other0 other1
    rw [HadSomeFailures_stateOf, HadSomeFailures_stateOf]
  · refine ⟨_, ApplyConfig_stateOf w cv sv0 sv1 mv0 mv1 in0 in1 _, hfalse _, rfl, rfl, ?_, ?_⟩
    · have h := IsProviderAvailable_stateOf w cv sv0 sv1 mv0 mv1 in0 in1 .Interpreter .u0
      simp only [Spec.Engine.id, Spec.UnitIndex.id] at h
      rw [h]
      exact slot_null_iff in0
    · have h := IsProviderAvailable_stateOf w cv sv0 sv1 mv0 mv1 in0 in1 .Interpreter .u1
      simp only [Spec.Engine.id, Spec.UnitIndex.id] at h
      rw [h]
      exact slot_null_iff in1

/-! ## Density of the registry and the lookups -/

section Density

variable {σ : Type}

theorem build_m_cores (sv0 sv1 mv0 mv1 in0 in1 : CpuInitializerBase) :
    (CpuInitializerSet.build sv0 sv1 mv0 mv1 in0 in1).m_cores =
      [(PROVIDER_INTERPRETER, [some in0, some in1]),
       (PROVIDER_SUPERVU, [some sv0, some sv1]),
       (PROVIDER_MICROVU, [some mv0, some mv1])] := rfl

/-- The pure lookup `slot` is `operator[]` followed by the vector index. -/
theorem slot_eq_subscript (s : CpuInitializerSet) (provider vu_index : Int) :
    s.slot provider vu_index =
      (if vu_index < 0 then none
       else
        match (s.m_cores.subscript provider).2.get? vu_index.toNat with
        | some (some sl) => some sl
        | _ => none) := by
  unfold CpuInitializerSet.slot CoreMap.subscript
  cases s.m_cores.find provider with
  | none => simp
  | some v => rfl

/-- A lookup of an enumerated provider in a full registry inserts nothing. -/
theorem build_afterLookup (sv0 sv1 mv0 mv1 in0 in1 : CpuInitializerBase)
    (e : Spec.Engine) :
    (CpuInitializerSet.build sv0 sv1 mv0 mv1 in0 in1).afterLookup e.id =
      CpuInitializerSet.build sv0 sv1 mv0 mv1 in0 in1 := by
  cases e <;> rfl

/-- In a full registry every enumerated provider is a key whose vector holds a
slot at both unit indices. -/
theorem build_in_bounds (sv0 sv1 mv0 mv1 in0 in1 : CpuInitializerBase)
    (e : Spec.Engine) (u : Spec.UnitIndex) :
    ∃ v sl,
      (CpuInitializerSet.build sv0 sv1 mv0 mv1 in0 in1).m_cores.find e.id = some v ∧
      v.length = 2 ∧ v.get? u.id.toNat = some (some sl) ∧
      (CpuInitializerSet.build sv0 sv1 mv0 mv1 in0 in1).slot e.id u.id = some sl := by
  cases e <;> cases u <;> exact ⟨_, _, rfl, rfl, rfl, rfl⟩

theorem stateOf_afterQuery (w : World σ) (cv : CpuVu)
    (sv0 sv1 mv0 mv1 in0 in1 : CpuInitializerBase) (e : Spec.Engine) :
    (stateOf w cv sv0 sv1 mv0 mv1 in0 in1).afterQuery e.id =
      stateOf w cv sv0 sv1 mv0 mv1 in0 in1 := by
  simp only [State.afterQuery, stateOf, Option.map_some', build_afterLookup]

/-- Whenever `Initialize` returns, the state is one over a full registry. -/
theorem Initialize_ok_stateOf (E : Engines σ) (g0 g : State σ)
    (h : Initialize E g0 = some (g, .ok ())) :
    ∃ sv0 sv1 mv0 mv1 in0 in1,
      g = stateOf g.world g.cpu_vu sv0 sv1 mv0 mv1 in0 in1 := by
  obtain ⟨w, set, hc, hreg, _⟩ := Initialize_ok_inv E g0 g h
  obtain ⟨wa, wb, wc, wd, we, sv0, sv1, mv0, mv1, in0, in1,
    _, _, _, _, _, _, hset⟩ := setCtor_ok_inv E _ _ _ hc
  subst hset
  exact ⟨sv0, sv1, mv0, mv1, in0, in1, state_eq_stateOf g _ _ _ _ _ _ hreg⟩

end Density

/-- C13: whenever `Initialize` returns, for every engine type and unit the two
queries answer, `IsProviderAvailable` is true exactly when `GetVUProvider` is
non-null, and the globals after either query (registry and Active Pointers)
are the globals before it: the lookup `m_cores[provider]` finds its key and
inserts nothing. -/
theorem C13_available_iff_handle_non_null {σ : Type} (E : Engines σ)
    (g0 g : State σ) (h : Initialize E g0 = some (g, .ok ()))
    (e : Spec.Engine) (u : Spec.UnitIndex) :
    ∃ a p,
      IsProviderAvailable g e.id u.id = some a ∧
      GetVUProvider g e.id u.id = some p ∧
      (a = true ↔ p ≠ none) ∧
      g.afterQuery e.id = g := by
  obtain ⟨sv0, sv1, mv0, mv1, in0, in1, hg⟩ := Initialize_ok_stateOf E g0 g h
  rw [hg, IsProviderAvailable_stateOf, GetVUProvider_stateOf, stateOf_afterQuery]
  exact ⟨_, _, rfl, rfl, slot_available_iff _, rfl⟩

/-- Witness for C13: at process start with engines of which only
`new recMicroVU1()` throws, `Initialize` returns; the microVU slot of unit 1 is
unavailable with a null handle, the one of unit 0 available with the handle at
address 3. -/
theorem C13_available_iff_handle_non_null_witness :
    Initialize Example.micro1Throws (boot Example.world) =
      some (Example.initialized, .ok ()) ∧
    (∃ a p,
      IsProviderAvailable Example.initialized PROVIDER_MICROVU VUCORE_1 = some a ∧
      GetVUProvider Example.initialized PROVIDER_MICROVU VUCORE_1 = some p ∧
      (a = true ↔ p ≠ none) ∧
      Example.initialized.afterQuery PROVIDER_MICROVU = Example.initialized) ∧
    IsProviderAvailable Example.initialized PROVIDER_MICROVU VUCORE_1 = some false ∧
    GetVUProvider Example.initialized PROVIDER_MICROVU VUCORE_0 = some (some 3) :=
  ⟨rfl, C13_available_iff_handle_non_null Example.micro1Throws (boot Example.world)
    Example.initialized rfl .RecompilerModern .u1, by decide, by decide⟩

/-- C15: whenever `Initialize` returns, the registry is dense. Its keys are
exactly `PROVIDER_INTERPRETER`, `PROVIDER_SUPERVU`, `PROVIDER_MICROVU`; every
key maps to a vector of exactly two non-null slots; for every enumerated
provider and unit the lookup `m_cores[provider][unit]` finds the key, leaves
the registry as it was, indexes inside the vector and yields a slot; and
`ApplyConfig`, `HadSomeFailures`, `IsProviderAvailable`, `GetException` and
`GetVUProvider` are all defined there. -/
theorem C15_registry_dense_lookups_in_bounds {σ : Type} (E : Engines σ)
    (g0 g : State σ) (h : Initialize E g0 = some (g, .ok ())) :
    ∃ reg, g.CpuProviders = some reg ∧
      reg.m_cores.map Prod.fst =
        [PROVIDER_INTERPRETER, PROVIDER_SUPERVU, PROVIDER_MICROVU] ∧
      reg.m_cores.all (fun kv => kv.2.length = 2 ∧ kv.2.all Option.isSome = true) = true ∧
      (∀ (e : Spec.Engine) (u : Spec.UnitIndex),
        reg.afterLookup e.id = reg ∧
        ∃ v sl, reg.m_cores.find e.id = some v ∧ v.length = 2 ∧
          v.get? u.id.toNat = some (some sl) ∧ reg.slot e.id u.id = some sl) ∧
      (∀ cfg : RecompilerOptions,
        (ApplyConfig cfg g).isSome = true ∧ (HadSomeFailures g cfg).isSome = true) ∧
      (∀ (e : Spec.Engine) (u : Spec.UnitIndex),
        (IsProviderAvailable g e.id u.id).isSome = true ∧
        (GetException g e.id u.id).isSome = true ∧
        (GetVUProvider g e.id u.id).isSome = true) := by
  obtain ⟨sv0, sv1, mv0, mv1, in0, in1, hg⟩ := Initialize_ok_stateOf E g0 g h
  refine ⟨CpuInitializerSet.build sv0 sv1 mv0 mv1 in0 in1, ?_, rfl, ?_, ?_, ?_, ?_⟩
  · rw [hg]
    rfl
  · rw [build_m_cores]
    simp
  · intro e u
    exact ⟨build_afterLookup _ _ _ _ _ _ e, build_in_bounds _ _ _ _ _ _ e u⟩
  · intro cfg
    rw [hg, ApplyConfig_stateOf, HadSomeFailures_stateOf]
    exact ⟨rfl, rfl⟩
  · intro e u
    rw [hg, IsProviderAvailable_stateOf, GetException_stateOf, GetVUProvider_stateOf]
    exact ⟨rfl, rfl, rfl⟩

/-- Witness for C15: the registry `Initialize` builds at process start with
engines of which only `new recMicroVU1()` throws. -/
theorem C15_registry_dense_lookups_in_bounds_witness :
    Initialize Example.micro1Throws (boot Example.world) =
      some (Example.initialized, .ok ()) ∧
    Example.initialized.CpuProviders = Example.micro1Failed.CpuProviders ∧
    ∃ reg, Example.initialized.CpuProviders = some reg ∧
      reg.m_cores.map Prod.fst =
        [PROVIDER_INTERPRETER, PROVIDER_SUPERVU, PROVIDER_MICROVU] ∧
      reg.m_cores.all (fun kv => kv.2.length = 2 ∧ kv.2.all Option.isSome = true) = true := by
  obtain ⟨reg, h1, h2, h3, _⟩ :=
    C15_registry_dense_lookups_in_bounds Example.micro1Throws (boot Example.world)
      Example.initialized rfl
  exact ⟨rfl, rfl, reg, h1, h2, h3⟩

/-! ## Destruction of the registry -/

section Teardown

variable {σ : Type}

theorem dtor_slot_log (E : Engines σ) (s : CpuInitializerBase) (w : World σ) :
    (CpuInitializer.dtor E s w).log = w.log ++ Spec.slotTeardown s := by
  rcases s with ⟨m, x⟩
  cases m <;>
    simp [CpuInitializer.dtor, Spec.slotTeardown, World.Shutdown, World.emit, World.store]

theorem dtor_slot_unavailable (E : Engines σ) (s : CpuInitializerBase) (w : World σ)
    (h : s.MyCpu = none) : CpuInitializer.dtor E s w = w := by
  unfold CpuInitializer.dtor
  rw [h]

/-- The destructor of a full registry destroys the six slots in key order. -/
theorem build_dtor (E : Engines σ) (w : World σ)
    (sv0 sv1 mv0 mv1 in0 in1 : CpuInitializerBase) :
    (CpuInitializerSet.build sv0 sv1 mv0 mv1 in0 in1).dtor E w =
      some (CpuInitializer.dtor E mv1 (CpuInitializer.dtor E mv0
        (CpuInitializer.dtor E sv1 (CpuInitializer.dtor E sv0
          (CpuInitializer.dtor E in1 (CpuInitializer.dtor E in0 w)))))) := rfl

theorem teardown_count (slots : List CpuInitializerBase) (p : Ptr) :
    (Spec.teardownCalls slots).count (.Shutdown p) =
      slots.countP (fun s => s.MyCpu == some p) := by
  induction slots with
  | nil => rfl
  | cons s rest ih =>
      rcases s with ⟨m, x⟩
      cases m with
      | none =>
          simp [Spec.teardownCalls, Spec.slotTeardown, List.countP_cons, ih]
      | some q =>
          by_cases hq : q = p
          · subst hq
            simp [Spec.teardownCalls, Spec.slotTeardown, List.countP_cons, ih,
              List.count_cons]
          · have hq2 : ¬ p = q := fun e => hq e.symm
            simp [Spec.teardownCalls, Spec.slotTeardown, List.countP_cons, ih,
              List.count_cons, hq, hq2]

/-- Building a slot never calls `Shutdown`. -/
theorem slotEvents_no_shutdown (E : Engines σ) (t : CpuType) (p : Ptr) :
    (Spec.slotEvents E t p).any Spec.isShutdown = false := by
  unfold Spec.slotEvents
  split
  · rename_i ex _
    cases ex <;> rfl
  · split
    · rfl
    · rename_i ex _
      cases ex <;> rfl

end Teardown

/-- C14: destroying a registry of six slots is defined and makes, slot by slot
in key order (interpreters, superVU, microVU; unit 0 before unit 1), the calls
`Shutdown` and then the release of the engine for a slot that is available and
no call for a slot that is not. So the number of `Shutdown` calls on a handle
is the number of available slots holding it, one per available slot. The
destructor of an unavailable slot leaves the world as it is. In particular the
slot of an engine whose instantiation or `Reserve` raised never shuts that
engine down: building a slot makes no `Shutdown` call, and the slot of a caught
failure makes no call when destroyed. What the engine does in its own
destructor once released is not a call of this unit. -/
theorem C14_teardown_shuts_down_available_slots {σ : Type} (E : Engines σ)
    (w w0 wx : World σ) (sv0 sv1 mv0 mv1 in0 in1 : CpuInitializerBase) (t : CpuType) :
    (∃ w2, (CpuInitializerSet.build sv0 sv1 mv0 mv1 in0 in1).dtor E w = some w2 ∧
      w2.log = w.log ++ Spec.teardownCalls [in0, in1, sv0, sv1, mv0, mv1] ∧
      ∀ p : Ptr,
        (Spec.teardownCalls [in0, in1, sv0, sv1, mv0, mv1]).count (.Shutdown p) =
          [in0, in1, sv0, sv1, mv0, mv1].countP (fun s => s.MyCpu == some p)) ∧
    (∀ s : CpuInitializerBase,
      s.IsAvailable = true ∨ CpuInitializer.dtor E s wx = wx) ∧
    (∃ calls, (CpuInitializer.ctor E t w0).1.log = w0.log ++ calls ∧
      calls.any Spec.isShutdown = false) ∧
    (match CpuInitializer.ctor E t w0 with
      | (_, .ok s) => Spec.failure E t = none ∨ CpuInitializer.dtor E s wx = wx
      | (_, .error _) => True) := by
  refine ⟨⟨_, build_dtor E w sv0 sv1 mv0 mv1 in0 in1, ?_, fun p => teardown_count _ p⟩,
    ?_, ⟨_, ctor_log E t w0, slotEvents_no_shutdown E t _⟩, ?_⟩
  · simp only [dtor_slot_log, Spec.teardownCalls, List.append_assoc, List.append_nil]
  · intro s
    cases hm : s.MyCpu with
    | none => exact Or.inr (dtor_slot_unavailable E s wx hm)
    | some q =>
        left
        simp [CpuInitializerBase.IsAvailable, hm]
  · rcases hc : CpuInitializer.ctor E t w0 with ⟨w1, ex | s⟩
    · trivial
    · simp only
      rcases ctor_ok_inv E t w0 w1 s hc with ⟨hf, _⟩ | ⟨ex, r, _, _, hs⟩
      · exact Or.inl hf
      · subst hs
        exact Or.inr (dtor_slot_unavailable E _ wx rfl)

/-! ## The shrink step -/

section Shrink

variable {σ : Type}

end Shrink

end VUInterface
